import Mathlib

/-!
Verification development for the C4 diagram generator (four levels:
context `C4ContextDiagram` in C1.py, container `C4ContainerDiagram` in
C2.py, component `C4ComponentDiagram` in C3.py, code `C4CodeDiagram` in
C4.py).

Shallow embedding conventions:
* Python `float` arithmetic is modelled by exact rationals `ℚ`.
* A Python method that can `raise ValueError` is modelled as returning
  `Except String α`; the carried string is the exception message, and an
  `Except.error` result means the receiver object was not mutated
  (every `raise` in the source happens before any mutation).
* `from_json` mutates `self` while iterating and an exception aborts the
  loop midway, so it is modelled as returning the (possibly partially
  updated) state together with an optional error: `α × Option String`.
* `to_json`/`from_json` are modelled on the JSON document tree (Python
  dicts/lists); the `json.dumps`/`json.loads` string codec is treated as
  an external faithful transport and is not modelled.
* `matplotlib` trigonometry: renders are parametrised by an arbitrary
  `trig : ℚ → ℚ × ℚ` giving the (cosine, sine) of an angle in degrees,
  so layout geometry stays executable and exact.
* Python dictionaries keyed by entity name are modelled as association
  lists in insertion order; `dictGet` returns the value of the *last*
  binding, mirroring dict-overwrite semantics.
* A Python `ZeroDivisionError` (`360 / 0`, and the NaN produced by
  `0 / 0` grid sizing) is modelled as `Option.none`.
* `C4.py` line 240 (in `_draw_class`) opens four parentheses and closes
  three, so the module does not parse and CPython cannot import it at
  all. Following the per-function convention, the intact method bodies
  of `C4CodeDiagram` are embedded faithfully, and a call of
  `_draw_class` — reached by every code-level render right after its
  validation branches — is modelled as a raised exception, making
  `C4CodeDiagram.generate` fail on every input.
-/

/-- Truthiness of a Python optional string: `None` and `""` are falsy. -/
def pyTruthy : Option String → Bool
  | none => false
  | some s => !(s == "")

/-- Last-binding lookup, mirroring Python dict insertion with overwrite:
`d[k] = v` repeated leaves the final `v`. -/
def dictGet {α : Type} (ps : List (String × α)) (k : String) : Option α :=
  ps.reverse.lookup k

/-- Sequencing of Python statements under exception propagation: if the
first step already raised, the second never runs. -/
def pyStep {α : Type} (r : α × Option String) (f : α → α × Option String) :
    α × Option String :=
  match r with
  | (s, some e) => (s, some e)
  | (s, none) => f s

/-- Run a list of `add…` calls (as done by the `from_json` loops) against
a mutable receiver: stop at the first exception, keeping the mutations
made so far. -/
def runAdds {σ ι : Type} (add : σ → ι → Except String σ) :
    σ → List ι → σ × Option String
  | s, [] => (s, none)
  | s, x :: xs =>
    match add s x with
    | .ok s' => runAdds add s' xs
    | .error e => (s, some e)

/-- The format check `output_format not in ["png", "jpg", "svg", "pdf"]`
shared by every `generate` method. -/
def formatSupported (fmt : String) : Prop :=
  fmt = "png" ∨ fmt = "jpg" ∨ fmt = "svg" ∨ fmt = "pdf"

instance (fmt : String) : Decidable (formatSupported fmt) := by
  unfold formatSupported; infer_instance

/-- `matplotlib`'s midpoint computation for a connector label:
`((x1+x2)/2, (y1+y2)/2)`. -/
def midPt (a b : ℚ × ℚ) : ℚ × ℚ :=
  ((a.1 + b.1) / 2, (a.2 + b.2) / 2)

/-- A drawn connector: arrow endpoints plus, when a label is rendered,
the position and text of that label. -/
structure DrawnEdge where
  src : ℚ × ℚ
  tgt : ℚ × ℚ
  labelPos : Option (ℚ × ℚ)
  labelText : Option String
deriving Repr, DecidableEq

/-- `angle_step = 360 / n` (C2.py:187, C3.py:264): a `ZeroDivisionError`
for `n = 0` is modelled as `none`. -/
def angle_step (n : ℕ) : Option ℚ :=
  if n = 0 then none else some (360 / (n : ℚ))

/-- `x = cos(radians(angle)) * radius`, `y = sin(radians(angle)) * radius`
(C2.py:192-193, C3.py:268-269) for an abstract `trig` returning the
(cosine, sine) of an angle in degrees. -/
def circlePoint (radius : ℚ) (trig : ℚ → ℚ × ℚ) (angle : ℚ) : ℚ × ℚ :=
  (radius * (trig angle).1, radius * (trig angle).2)

/-! ## Level 1: `C4ContextDiagram` (C1.py) -/

/-- A user entry appended by `add_user` (C1.py:44). -/
structure ContextUser where
  name : String
  description : Option String
  role : Option String
deriving Repr, DecidableEq

/-- An external-system entry appended by `add_external_system`
(C1.py:65). -/
structure ContextExternalSystem where
  name : String
  description : Option String
  protocol : Option String
deriving Repr, DecidableEq

/-- A relationship entry appended by `add_relationship` (C1.py:88). -/
structure ContextRelationship where
  source : String
  target : String
  label : String
  bidirectional : Bool
deriving Repr, DecidableEq

/-- The state of a `C4ContextDiagram` instance (C1.py:18-22). -/
structure C4ContextDiagram where
  system_name : String
  output_filename : String
  users : List ContextUser
  external_systems : List ContextExternalSystem
  relationships : List ContextRelationship
deriving Repr, DecidableEq

/-- `C4ContextDiagram.__init__` (C1.py:10-23); the `isidentifier` check on
the filename only guards path traversal and involves no diagram state. -/
def C4ContextDiagram.init (system_name output_filename : String) :
    C4ContextDiagram :=
  ⟨system_name, output_filename, [], [], []⟩

/-- `C4ContextDiagram.add_user` (C1.py:30-49). -/
def C4ContextDiagram.add_user (d : C4ContextDiagram) (name : String)
    (description role : Option String) : Except String C4ContextDiagram :=
  if name = "" then .error "User name cannot be empty"
  else .ok { d with users := d.users ++ [⟨name, description, role⟩] }

/-- `C4ContextDiagram.add_external_system` (C1.py:51-70). -/
def C4ContextDiagram.add_external_system (d : C4ContextDiagram)
    (name : String) (description protocol : Option String) :
    Except String C4ContextDiagram :=
  if name = "" then .error "External system name cannot be empty"
  else .ok { d with external_systems :=
               d.external_systems ++ [⟨name, description, protocol⟩] }

/-- `C4ContextDiagram.add_relationship` (C1.py:72-94): `not all([...])`
fails when any of the three strings is empty. -/
def C4ContextDiagram.add_relationship (d : C4ContextDiagram)
    (source target label : String) (bidirectional : Bool) :
    Except String C4ContextDiagram :=
  if source = "" ∨ target = "" ∨ label = "" then
    .error "Source, target and label cannot be empty"
  else .ok { d with relationships :=
               d.relationships ++ [⟨source, target, label, bidirectional⟩] }

/-- The JSON document tree for a context diagram; a `none` field means the
key is absent from the document. -/
structure ContextDoc where
  system_name : Option String
  users : Option (List ContextUser)
  external_systems : Option (List ContextExternalSystem)
  relationships : Option (List ContextRelationship)
deriving Repr, DecidableEq

/-- `C4ContextDiagram.to_json` (C1.py:138-154), modelled as the document
tree passed to `json.dumps`: every key is present. -/
def C4ContextDiagram.to_json (d : C4ContextDiagram) : ContextDoc :=
  ⟨some d.system_name, some d.users, some d.external_systems,
   some d.relationships⟩

/-- `C4ContextDiagram.from_json` (C1.py:96-136): reads the optional title,
then feeds each listed user, external system and relationship into the
corresponding `add…` method in order; an exception stops processing but
keeps the mutations made so far. -/
def C4ContextDiagram.from_json (d : C4ContextDiagram) (doc : ContextDoc) :
    C4ContextDiagram × Option String :=
  let d1 := match doc.system_name with
    | some s => { d with system_name := s }
    | none => d
  let r1 := match doc.users with
    | some us => runAdds
        (fun s u => s.add_user u.name u.description u.role) d1 us
    | none => (d1, none)
  let r2 := pyStep r1 (fun s => match doc.external_systems with
    | some es => runAdds
        (fun s e => s.add_external_system e.name e.description e.protocol)
        s es
    | none => (s, none))
  pyStep r2 (fun s => match doc.relationships with
    | some rs => runAdds
        (fun s r => s.add_relationship r.source r.target r.label
          r.bidirectional) s rs
    | none => (s, none))

/-- `C4ContextDiagram._find_relationship` (C1.py:243-250). -/
def C4ContextDiagram.find_relationship (d : C4ContextDiagram)
    (source target : String) : Option ContextRelationship :=
  d.relationships.find? fun r =>
    (r.source == source && r.target == target) ||
    (r.bidirectional && r.source == target && r.target == source)

/-- `C4ContextDiagram._find_relationship_label` (C1.py:252-255). -/
def C4ContextDiagram.find_relationship_label (d : C4ContextDiagram)
    (source target : String) : Option String :=
  (d.find_relationship source target).map (·.label)

/-- `max_elements = max(len(self.users), len(self.external_systems), 1)`
(C1.py:179). -/
def context_max_elements (d : C4ContextDiagram) : ℕ :=
  max (max d.users.length d.external_systems.length) 1

/-- `vertical_spacing = 10 / max(1, max_elements)` (C1.py:180). -/
def context_vertical_spacing (d : C4ContextDiagram) : ℚ :=
  10 / (max 1 (context_max_elements d) : ℕ)

/-- `y_offset = (idx - len(self.users)/2) * vertical_spacing`
(C1.py:191). -/
def context_user_y (d : C4ContextDiagram) (idx : ℕ) : ℚ :=
  ((idx : ℚ) - (d.users.length : ℚ) / 2) * context_vertical_spacing d

/-- `y_offset = (idx - len(self.external_systems)/2) * vertical_spacing`
(C1.py:209). -/
def context_ext_y (d : C4ContextDiagram) (idx : ℕ) : ℚ :=
  ((idx : ℚ) - (d.external_systems.length : ℚ) / 2) *
    context_vertical_spacing d

/-- The connector drawn for the `idx`-th user (C1.py:197-205): arrow from
`(-4, y)` to `(-1.5, 0.2*y)`; if a truthy relationship label to the
system is found, it is drawn at `(-2.5, 0.6*y)`. -/
def contextUserEdge (d : C4ContextDiagram) (idx : ℕ) (u : ContextUser) :
    DrawnEdge :=
  let y := context_user_y d idx
  let rl := d.find_relationship_label u.name d.system_name
  { src := (-4, y)
    tgt := (-3/2, y/5)
    labelPos := if pyTruthy rl then some (-5/2, 3*y/5) else none
    labelText := if pyTruthy rl then rl else none }

/-- The connector drawn for the `idx`-th external system (C1.py:217-233):
the direction flips when the found relationship's source is the external
system; the label is drawn at `(2.5*direction, 0.6*y)` whenever a
relationship is found. -/
def contextExtEdge (d : C4ContextDiagram) (idx : ℕ)
    (e : ContextExternalSystem) : DrawnEdge :=
  let y := context_ext_y d idx
  let rel := d.find_relationship d.system_name e.name
  let dir : ℚ := match rel with
    | some r => if r.bidirectional then 1
                else if r.source == e.name then -1 else 1
    | none => 1
  { src := (4*dir, y)
    tgt := (3/2*dir, y/5)
    labelPos := rel.map (fun _ => (5/2*dir, 3*y/5))
    labelText := rel.map (·.label) }

/-- Everything `C4ContextDiagram.generate` draws, plus the output path. -/
structure ContextRender where
  output_path : String
  system_pos : ℚ × ℚ
  userBoxes : List (String × (ℚ × ℚ))
  extBoxes : List (String × (ℚ × ℚ))
  userEdges : List DrawnEdge
  extEdges : List DrawnEdge
deriving Repr, DecidableEq

/-- `C4ContextDiagram.generate` (C1.py:156-241): rejects an unsupported
format before any drawing work; users are boxed at `x = -5`, external
systems at `x = +5`, the subject system at the origin. -/
def C4ContextDiagram.generate (d : C4ContextDiagram) (fmt : String) :
    Except String ContextRender :=
  if formatSupported fmt then
    .ok { output_path :=
            "diagrams_output/" ++ d.output_filename ++ "." ++ fmt
          system_pos := (0, 0)
          userBoxes := d.users.enum.map
            (fun p => (p.2.name, ((-5 : ℚ), context_user_y d p.1)))
          extBoxes := d.external_systems.enum.map
            (fun p => (p.2.name, ((5 : ℚ), context_ext_y d p.1)))
          userEdges := d.users.enum.map (fun p => contextUserEdge d p.1 p.2)
          extEdges := d.external_systems.enum.map
            (fun p => contextExtEdge d p.1 p.2) }
  else .error ("Unsupported output format: " ++ fmt)

/-! ## Level 2: `C4ContainerDiagram` (C2.py) -/

/-- A container entry appended by `add_container` (C2.py:50). -/
structure Container where
  name : String
  technology : String
  description : Option String
  type : String
  db_schema : Option String
deriving Repr, DecidableEq

/-- A relationship entry appended by `add_relationship` (C2.py:78). -/
structure ContainerRelationship where
  source : String
  target : String
  label : String
  protocol : Option String
  bidirectional : Bool
deriving Repr, DecidableEq

/-- The state of a `C4ContainerDiagram` instance (C2.py:19-23). -/
structure C4ContainerDiagram where
  system_name : String
  output_filename : String
  containers : List Container
  relationships : List ContainerRelationship
deriving Repr, DecidableEq

/-- `C4ContainerDiagram.__init__` (C2.py:11-23). -/
def C4ContainerDiagram.init (system_name output_filename : String) :
    C4ContainerDiagram :=
  ⟨system_name, output_filename, [], []⟩

/-- `C4ContainerDiagram.add_container` (C2.py:30-57): name and technology
must both be non-empty. -/
def C4ContainerDiagram.add_container (d : C4ContainerDiagram)
    (name technology : String) (description : Option String)
    (container_type : String) (db_schema : Option String) :
    Except String C4ContainerDiagram :=
  if name = "" ∨ technology = "" then
    .error "Container name and technology cannot be empty"
  else .ok { d with containers :=
               d.containers ++
                 [⟨name, technology, description, container_type,
                   db_schema⟩] }

/-- `C4ContainerDiagram.add_relationship` (C2.py:59-85). -/
def C4ContainerDiagram.add_relationship (d : C4ContainerDiagram)
    (source target label : String) (protocol : Option String)
    (bidirectional : Bool) : Except String C4ContainerDiagram :=
  if source = "" ∨ target = "" ∨ label = "" then
    .error "Source, target and label cannot be empty"
  else .ok { d with relationships :=
               d.relationships ++
                 [⟨source, target, label, protocol, bidirectional⟩] }

/-- The JSON document tree for a container diagram. -/
structure ContainerDoc where
  system_name : Option String
  containers : Option (List Container)
  relationships : Option (List ContainerRelationship)
deriving Repr, DecidableEq

/-- `C4ContainerDiagram.to_json` (C2.py:124-139). -/
def C4ContainerDiagram.to_json (d : C4ContainerDiagram) : ContainerDoc :=
  ⟨some d.system_name, some d.containers, some d.relationships⟩

/-- `C4ContainerDiagram.from_json` (C2.py:87-122): `container.get("type",
"Application")` supplies the default type for entries missing the key;
entries written by `to_json` always carry the key. -/
def C4ContainerDiagram.from_json (d : C4ContainerDiagram)
    (doc : ContainerDoc) : C4ContainerDiagram × Option String :=
  let d1 := match doc.system_name with
    | some s => { d with system_name := s }
    | none => d
  let r1 := match doc.containers with
    | some cs => runAdds
        (fun s c => s.add_container c.name c.technology c.description
          c.type c.db_schema) d1 cs
    | none => (d1, none)
  pyStep r1 (fun s => match doc.relationships with
    | some rs => runAdds
        (fun s r => s.add_relationship r.source r.target r.label
          r.protocol r.bidirectional) s rs
    | none => (s, none))

/-- The circular layout computed inline by `C4ContainerDiagram.generate`
(C2.py:185-195): radius 6, the `idx`-th container at angle
`idx * (360 / n)` degrees. -/
def containerPositions (trig : ℚ → ℚ × ℚ) (cs : List Container) :
    Option (List (String × (ℚ × ℚ))) :=
  (angle_step cs.length).map (fun step =>
    cs.enum.map (fun p => (p.2.name, circlePoint 6 trig ((p.1 : ℚ) * step))))

/-- The connector drawn for one container relationship (C2.py:212-242):
skipped entirely when either endpoint name is missing from `positions`;
otherwise the label (with ` (protocol)` appended when truthy) is drawn at
the midpoint of the two endpoint positions. -/
def containerEdge (ps : List (String × (ℚ × ℚ)))
    (r : ContainerRelationship) : Option DrawnEdge :=
  match dictGet ps r.source, dictGet ps r.target with
  | some s, some t =>
    some { src := s
           tgt := t
           labelPos := some (midPt s t)
           labelText := some (r.label ++
             (if pyTruthy r.protocol
              then " (" ++ r.protocol.getD "" ++ ")" else "")) }
  | _, _ => none

/-- Everything `C4ContainerDiagram.generate` draws, plus the output
path. -/
structure ContainerRender where
  output_path : String
  boxes : List (String × (ℚ × ℚ))
  edges : List DrawnEdge
deriving Repr, DecidableEq

/-- `C4ContainerDiagram.generate` (C2.py:153-250): format check first,
then the empty-collection check, then layout and drawing. The `none`
branch of the layout is the `ZeroDivisionError` that `360 / 0` would
raise; it is unreachable because the empty check precedes it. -/
def C4ContainerDiagram.generate (d : C4ContainerDiagram)
    (trig : ℚ → ℚ × ℚ) (fmt : String) : Except String ContainerRender :=
  if formatSupported fmt then
    if d.containers.isEmpty then .error "No containers added to diagram"
    else
      match containerPositions trig d.containers with
      | none => .error "division by zero"
      | some ps =>
        .ok { output_path :=
                "diagrams_output/" ++ d.output_filename ++ "." ++ fmt
              boxes := ps
              edges := d.relationships.filterMap (containerEdge ps) }
  else .error ("Unsupported output format: " ++ fmt)

/-! ## Level 3: `C4ComponentDiagram` (C3.py) -/

/-- A component entry appended by `add_component` (C3.py:50). -/
structure Component where
  name : String
  technology : String
  description : Option String
  type : String
  interface : Option String
deriving Repr, DecidableEq

/-- A relationship entry appended by `add_relationship` (C3.py:80). -/
structure ComponentRelationship where
  source : String
  target : String
  label : String
  protocol : Option String
  bidirectional : Bool
  async : Bool
deriving Repr, DecidableEq

/-- The state of a `C4ComponentDiagram` instance (C3.py:19-23). -/
structure C4ComponentDiagram where
  container_name : String
  output_filename : String
  components : List Component
  relationships : List ComponentRelationship
deriving Repr, DecidableEq

/-- `C4ComponentDiagram.__init__` (C3.py:11-23). -/
def C4ComponentDiagram.init (container_name output_filename : String) :
    C4ComponentDiagram :=
  ⟨container_name, output_filename, [], []⟩

/-- `C4ComponentDiagram.add_component` (C3.py:30-57). -/
def C4ComponentDiagram.add_component (d : C4ComponentDiagram)
    (name technology : String) (description : Option String)
    (component_type : String) (interface : Option String) :
    Except String C4ComponentDiagram :=
  if name = "" ∨ technology = "" then
    .error "Component name and technology cannot be empty"
  else .ok { d with components :=
               d.components ++
                 [⟨name, technology, description, component_type,
                   interface⟩] }

/-- `C4ComponentDiagram.add_relationship` (C3.py:59-88). -/
def C4ComponentDiagram.add_relationship (d : C4ComponentDiagram)
    (source target label : String) (protocol : Option String)
    (bidirectional async_comm : Bool) : Except String C4ComponentDiagram :=
  if source = "" ∨ target = "" ∨ label = "" then
    .error "Source, target and label cannot be empty"
  else .ok { d with relationships :=
               d.relationships ++
                 [⟨source, target, label, protocol, bidirectional,
                   async_comm⟩] }

/-- The JSON document tree for a component diagram. -/
structure ComponentDoc where
  container_name : Option String
  components : Option (List Component)
  relationships : Option (List ComponentRelationship)
deriving Repr, DecidableEq

/-- `C4ComponentDiagram.to_json` (C3.py:128-143). -/
def C4ComponentDiagram.to_json (d : C4ComponentDiagram) : ComponentDoc :=
  ⟨some d.container_name, some d.components, some d.relationships⟩

/-- `C4ComponentDiagram.from_json` (C3.py:90-126). -/
def C4ComponentDiagram.from_json (d : C4ComponentDiagram)
    (doc : ComponentDoc) : C4ComponentDiagram × Option String :=
  let d1 := match doc.container_name with
    | some s => { d with container_name := s }
    | none => d
  let r1 := match doc.components with
    | some cs => runAdds
        (fun s c => s.add_component c.name c.technology c.description
          c.type c.interface) d1 cs
    | none => (d1, none)
  pyStep r1 (fun s => match doc.relationships with
    | some rs => runAdds
        (fun s r => s.add_relationship r.source r.target r.label
          r.protocol r.bidirectional r.async) s rs
    | none => (s, none))

/-- `C4ComponentDiagram._calculate_positions` (C3.py:258-272): radius 5,
the `idx`-th component at angle `idx * (360 / n)` degrees; calling it
with an empty collection is the `ZeroDivisionError` of `360 / 0`,
modelled as `none`. -/
def C4ComponentDiagram.calculate_positions (d : C4ComponentDiagram)
    (trig : ℚ → ℚ × ℚ) : Option (List (String × (ℚ × ℚ))) :=
  (angle_step d.components.length).map (fun step =>
    d.components.enum.map
      (fun p => (p.2.name, circlePoint 5 trig ((p.1 : ℚ) * step))))

/-- The connector drawn for one component relationship (C3.py:213-248):
skipped when either endpoint name is missing from `positions`; the label
(with ` (protocol)` appended when truthy) is drawn at the midpoint of the
two endpoint positions. The `async`/`bidirectional` flags only change
arrow styling. -/
def componentEdge (ps : List (String × (ℚ × ℚ)))
    (r : ComponentRelationship) : Option DrawnEdge :=
  match dictGet ps r.source, dictGet ps r.target with
  | some s, some t =>
    some { src := s
           tgt := t
           labelPos := some (midPt s t)
           labelText := some (r.label ++
             (if pyTruthy r.protocol
              then " (" ++ r.protocol.getD "" ++ ")" else "")) }
  | _, _ => none

/-- Everything `C4ComponentDiagram.generate` draws, plus the output
path. -/
structure ComponentRender where
  output_path : String
  boxes : List (String × (ℚ × ℚ))
  edges : List DrawnEdge
deriving Repr, DecidableEq

/-- `C4ComponentDiagram.generate` (C3.py:157-256). -/
def C4ComponentDiagram.generate (d : C4ComponentDiagram)
    (trig : ℚ → ℚ × ℚ) (fmt : String) : Except String ComponentRender :=
  if formatSupported fmt then
    if d.components.isEmpty then .error "No components added to diagram"
    else
      match d.calculate_positions trig with
      | none => .error "division by zero"
      | some ps =>
        .ok { output_path :=
                "diagrams_output/" ++ d.output_filename ++ "." ++ fmt
              boxes := ps
              edges := d.relationships.filterMap (componentEdge ps) }
  else .error ("Unsupported output format: " ++ fmt)

/-! ## Level 4: `C4CodeDiagram` (C4.py) -/

/-- A class entry appended by `add_class` (C4.py:58): `attributes or []`
and `methods or []` replace `None` (and `[]`) by `[]`. -/
structure CodeClass where
  name : String
  description : Option String
  attributes : List String
  methods : List String
  type : String
  is_abstract : Bool
  is_interface : Bool
deriving Repr, DecidableEq

/-- An association entry appended by `add_association` (C4.py:91): note
that `label` and `multiplicity` are optional. -/
structure CodeAssociation where
  class1 : String
  class2 : String
  label : Option String
  multiplicity : Option String
  aggregation : Bool
  composition : Bool
deriving Repr, DecidableEq

/-- An inheritance entry appended by `add_inheritance` (C4.py:115). -/
structure CodeInheritance where
  subclass : String
  superclass : String
deriving Repr, DecidableEq

/-- An interface-implementation entry appended by
`add_interface_implementation` (C4.py:135). -/
structure CodeInterfaceImpl where
  implementor : String
  interface : String
deriving Repr, DecidableEq

/-- The state of a `C4CodeDiagram` instance (C4.py:20-26). -/
structure C4CodeDiagram where
  component_name : String
  output_filename : String
  classes : List CodeClass
  associations : List CodeAssociation
  inheritances : List CodeInheritance
  interfaces : List CodeInterfaceImpl
deriving Repr, DecidableEq

/-- `C4CodeDiagram.__init__` (C4.py:12-26). -/
def C4CodeDiagram.init (component_name output_filename : String) :
    C4CodeDiagram :=
  ⟨component_name, output_filename, [], [], [], []⟩

/-- `C4CodeDiagram.add_class` (C4.py:33-67): only the name is validated;
`attributes or []` / `methods or []` normalise the optional lists. -/
def C4CodeDiagram.add_class (d : C4CodeDiagram) (name : String)
    (description : Option String) (attributes methods : Option (List String))
    (class_type : String) (is_abstract is_interface : Bool) :
    Except String C4CodeDiagram :=
  if name = "" then .error "Class name cannot be empty"
  else .ok { d with classes :=
               d.classes ++
                 [⟨name, description, attributes.getD [], methods.getD [],
                   class_type, is_abstract, is_interface⟩] }

/-- `C4CodeDiagram.add_association` (C4.py:69-99): only the two class
names are validated; `label` and `multiplicity` are optional. -/
def C4CodeDiagram.add_association (d : C4CodeDiagram)
    (class1 class2 : String) (label multiplicity : Option String)
    (aggregation composition : Bool) : Except String C4CodeDiagram :=
  if class1 = "" ∨ class2 = "" then .error "Class names cannot be empty"
  else .ok { d with associations :=
               d.associations ++
                 [⟨class1, class2, label, multiplicity, aggregation,
                   composition⟩] }

/-- `C4CodeDiagram.add_inheritance` (C4.py:101-119). -/
def C4CodeDiagram.add_inheritance (d : C4CodeDiagram)
    (subclass superclass : String) : Except String C4CodeDiagram :=
  if subclass = "" ∨ superclass = "" then
    .error "Class names cannot be empty"
  else .ok { d with inheritances :=
               d.inheritances ++ [⟨subclass, superclass⟩] }

/-- `C4CodeDiagram.add_interface_implementation` (C4.py:121-139). -/
def C4CodeDiagram.add_interface_implementation (d : C4CodeDiagram)
    (implementor interface : String) : Except String C4CodeDiagram :=
  if implementor = "" ∨ interface = "" then
    .error "Class names cannot be empty"
  else .ok { d with interfaces :=
               d.interfaces ++ [⟨implementor, interface⟩] }

/-- The JSON document tree for a code diagram. -/
structure CodeDoc where
  component_name : Option String
  classes : Option (List CodeClass)
  associations : Option (List CodeAssociation)
  inheritances : Option (List CodeInheritance)
  interfaces : Option (List CodeInterfaceImpl)
deriving Repr, DecidableEq

/-- `C4CodeDiagram.to_json` (C4.py:195-212). -/
def C4CodeDiagram.to_json (d : C4CodeDiagram) : CodeDoc :=
  ⟨some d.component_name, some d.classes, some d.associations,
   some d.inheritances, some d.interfaces⟩

/-- `C4CodeDiagram.from_json` (C4.py:141-193): classes, then
associations, then inheritances, then interface implementations. -/
def C4CodeDiagram.from_json (d : C4CodeDiagram) (doc : CodeDoc) :
    C4CodeDiagram × Option String :=
  let d1 := match doc.component_name with
    | some s => { d with component_name := s }
    | none => d
  let r1 := match doc.classes with
    | some cs => runAdds
        (fun s c => s.add_class c.name c.description (some c.attributes)
          (some c.methods) c.type c.is_abstract c.is_interface) d1 cs
    | none => (d1, none)
  let r2 := pyStep r1 (fun s => match doc.associations with
    | some as_ => runAdds
        (fun s a => s.add_association a.class1 a.class2 a.label
          a.multiplicity a.aggregation a.composition) s as_
    | none => (s, none))
  let r3 := pyStep r2 (fun s => match doc.inheritances with
    | some is_ => runAdds
        (fun s i => s.add_inheritance i.subclass i.superclass) s is_
    | none => (s, none))
  pyStep r3 (fun s => match doc.interfaces with
    | some js => runAdds
        (fun s j => s.add_interface_implementation j.implementor
          j.interface) s js
    | none => (s, none))

/-- `int(np.ceil(np.sqrt(n)))` (C4.py:412): the least `k` with
`n ≤ k * k`. -/
def ceilSqrtPy (n : ℕ) : ℕ :=
  (((List.range (n + 1)).find? (fun k => decide (n ≤ k * k))).getD n)

/-- `C4CodeDiagram._calculate_positions` (C4.py:406-427): grid layout
with `cols = ceil(sqrt(n))`, `rows = ceil(n / cols)`, x-spacing 6,
y-spacing 5, centred on the origin. For `n = 0` the `n / cols` NaN makes
`int(...)` raise, modelled as `none`. -/
def C4CodeDiagram.calculate_positions (d : C4CodeDiagram) :
    Option (List (String × (ℚ × ℚ))) :=
  if d.classes.isEmpty then none
  else
    let n := d.classes.length
    let cols := ceilSqrtPy n
    let rows := (n + cols - 1) / cols
    let start_x : ℚ := -(((cols : ℚ) - 1) * 6 / 2)
    let start_y : ℚ := ((rows : ℚ) - 1) * 5 / 2
    some (d.classes.enum.map (fun p =>
      (p.2.name,
       (start_x + ((p.1 % cols : ℕ) : ℚ) * 6,
        start_y - ((p.1 / cols : ℕ) : ℚ) * 5))))

/-- The label text assembled by `C4CodeDiagram._draw_relationship`
(C4.py:322-338): drawn only when `label or multiplicity` is truthy;
a newline separates the two parts when both are present. -/
def codeLabelText (label multiplicity : Option String) : Option String :=
  if pyTruthy label || pyTruthy multiplicity then
    let t1 := if pyTruthy label then label.getD "" else ""
    let t2 := if pyTruthy multiplicity then
                (if t1 = "" then t1 ++ multiplicity.getD ""
                 else t1 ++ "\n" ++ multiplicity.getD "")
              else t1
    some t2
  else none

/-- The connector drawn for one association (C4.py:376-382 feeding
`_draw_relationship`): skipped when either class name is missing from
`positions`; the label, when drawn, sits at the midpoint. -/
def codeAssocEdge (ps : List (String × (ℚ × ℚ))) (a : CodeAssociation) :
    Option DrawnEdge :=
  match dictGet ps a.class1, dictGet ps a.class2 with
  | some p1, some p2 =>
    some { src := p1
           tgt := p2
           labelPos := (codeLabelText a.label a.multiplicity).map
             (fun _ => midPt p1 p2)
           labelText := codeLabelText a.label a.multiplicity }
  | _, _ => none

/-- The connector drawn for one inheritance (C4.py:385-389): no label. -/
def codeInhEdge (ps : List (String × (ℚ × ℚ))) (i : CodeInheritance) :
    Option DrawnEdge :=
  match dictGet ps i.subclass, dictGet ps i.superclass with
  | some p1, some p2 =>
    some { src := p1, tgt := p2, labelPos := none, labelText := none }
  | _, _ => none

/-- The connector drawn for one interface implementation
(C4.py:392-396): no label. -/
def codeIntfEdge (ps : List (String × (ℚ × ℚ))) (j : CodeInterfaceImpl) :
    Option DrawnEdge :=
  match dictGet ps j.implementor, dictGet ps j.interface with
  | some p1, some p2 =>
    some { src := p1, tgt := p2, labelPos := none, labelText := none }
  | _, _ => none

/-- Everything `C4CodeDiagram.generate` draws, plus the output path. -/
structure CodeRender where
  output_path : String
  boxes : List (String × (ℚ × ℚ))
  assocEdges : List DrawnEdge
  inhEdges : List DrawnEdge
  intfEdges : List DrawnEdge
deriving Repr, DecidableEq

/-- `C4CodeDiagram._draw_class` (C4.py:237-291) does not parse: line 240
opens four parentheses but closes three, so the assignment swallows the
following `if` statement and CPython rejects the whole module with a
SyntaxError. A call of the method is modelled as an exception carrying
this marker. -/
def C4CodeDiagram.draw_class_error : String := "SyntaxError in _draw_class"

/-- `C4CodeDiagram.generate` (C4.py:340-404): format check, empty check,
grid layout — and then the class-drawing loop (C4.py:370-373) calls
`_draw_class` for every class whose name has a position. With a
non-empty class list every class's name is a key of `positions`, so the
first iteration already calls `_draw_class` and dies on its syntax
error: a code-level render can never succeed. The association,
inheritance and interface loops (C4.py:376-396), modelled separately by
`codeAssocEdge`, `codeInhEdge` and `codeIntfEdge`, are never reached by
`generate`. -/
def C4CodeDiagram.generate (d : C4CodeDiagram) (fmt : String) :
    Except String CodeRender :=
  if formatSupported fmt then
    if d.classes.isEmpty then .error "No classes added to diagram"
    else
      match d.calculate_positions with
      | none => .error "division by zero"
      | some _ => .error C4CodeDiagram.draw_class_error
  else .error ("Unsupported output format: " ++ fmt)

/-! ## Derived layout lists and basic lemmas -/

/-- The value of the container layout in the non-degenerate case:
`idx * (360 / n)` degrees on the radius-6 circle. -/
def containerLayoutList (trig : ℚ → ℚ × ℚ) (cs : List Container) :
    List (String × (ℚ × ℚ)) :=
  cs.enum.map (fun p =>
    (p.2.name, circlePoint 6 trig ((p.1 : ℚ) * (360 / (cs.length : ℚ)))))

/-- The value of the component layout in the non-degenerate case:
`idx * (360 / n)` degrees on the radius-5 circle. -/
def componentLayoutList (trig : ℚ → ℚ × ℚ) (cs : List Component) :
    List (String × (ℚ × ℚ)) :=
  cs.enum.map (fun p =>
    (p.2.name, circlePoint 5 trig ((p.1 : ℚ) * (360 / (cs.length : ℚ)))))

lemma lookup_isSome_iff {α : Type} :
    ∀ (ps : List (String × α)) (k : String),
      (ps.lookup k).isSome ↔ k ∈ ps.map Prod.fst := by
  intro ps k
  induction ps with
  | nil => simp [List.lookup]
  | cons p t ih =>
    cases p with
    | mk a b =>
      by_cases hk : k = a
      · subst hk; simp [List.lookup]
      · have hba : (k == a) = false := by simp [hk]
        simp [List.lookup, hba, hk, ih]

lemma dictGet_isSome_iff {α : Type} (ps : List (String × α)) (k : String) :
    (dictGet ps k).isSome ↔ k ∈ ps.map Prod.fst := by
  unfold dictGet
  rw [lookup_isSome_iff]
  simp [List.map_reverse]

lemma dictGet_eq_none_iff {α : Type} (ps : List (String × α)) (k : String) :
    dictGet ps k = none ↔ k ∉ ps.map Prod.fst := by
  rw [← dictGet_isSome_iff]
  cases dictGet ps k <;> simp

lemma enum_map_keys {α β : Type} (f : ℕ × α → β) (g : α → String)
    (l : List α) :
    (l.enum.map (fun p => (g p.2, f p))).map Prod.fst = l.map g := by
  rw [List.map_map]
  have h : (Prod.fst ∘ fun p : ℕ × α => (g p.2, f p)) = (g ∘ Prod.snd) := rfl
  rw [h, ← List.map_map, List.enum_map_snd]

lemma containerLayoutList_keys (trig : ℚ → ℚ × ℚ) (cs : List Container) :
    (containerLayoutList trig cs).map Prod.fst = cs.map Container.name :=
  enum_map_keys _ _ cs

lemma componentLayoutList_keys (trig : ℚ → ℚ × ℚ) (cs : List Component) :
    (componentLayoutList trig cs).map Prod.fst = cs.map Component.name :=
  enum_map_keys _ _ cs

lemma containerPositions_eq (trig : ℚ → ℚ × ℚ) {cs : List Container}
    (h : cs ≠ []) :
    containerPositions trig cs = some (containerLayoutList trig cs) := by
  have hlen : cs.length ≠ 0 := by simpa using h
  simp [containerPositions, containerLayoutList, angle_step, hlen]

lemma componentPositions_eq (trig : ℚ → ℚ × ℚ) {d : C4ComponentDiagram}
    (h : d.components ≠ []) :
    d.calculate_positions trig =
      some (componentLayoutList trig d.components) := by
  have hlen : d.components.length ≠ 0 := by simpa using h
  simp [C4ComponentDiagram.calculate_positions, componentLayoutList,
    angle_step, hlen]

/-! ## Inversion lemmas for the add-operations -/

lemma add_user_ok {d d' : C4ContextDiagram} {n : String}
    {ds rl : Option String} (h : d.add_user n ds rl = .ok d') :
    n ≠ "" ∧ d' = { d with users := d.users ++ [⟨n, ds, rl⟩] } := by
  by_cases hn : n = "" <;> simp [C4ContextDiagram.add_user, hn] at h
  exact ⟨hn, h.symm⟩

lemma add_external_system_ok {d d' : C4ContextDiagram} {n : String}
    {ds pr : Option String} (h : d.add_external_system n ds pr = .ok d') :
    n ≠ "" ∧
      d' = { d with external_systems :=
               d.external_systems ++ [⟨n, ds, pr⟩] } := by
  by_cases hn : n = "" <;>
    simp [C4ContextDiagram.add_external_system, hn] at h
  exact ⟨hn, h.symm⟩

lemma ctx_add_relationship_ok {d d' : C4ContextDiagram} {s t l : String}
    {b : Bool} (h : d.add_relationship s t l b = .ok d') :
    (s ≠ "" ∧ t ≠ "" ∧ l ≠ "") ∧
      d' = { d with relationships :=
               d.relationships ++ [⟨s, t, l, b⟩] } := by
  by_cases hc : s = "" ∨ t = "" ∨ l = ""
  · simp [C4ContextDiagram.add_relationship, hc] at h
  · push_neg at hc
    unfold C4ContextDiagram.add_relationship at h
    rw [if_neg (by push_neg; exact hc)] at h
    exact ⟨hc, (Except.ok.inj h).symm⟩

lemma add_container_ok {d d' : C4ContainerDiagram} {n te : String}
    {ds sch : Option String} {ty : String}
    (h : d.add_container n te ds ty sch = .ok d') :
    (n ≠ "" ∧ te ≠ "") ∧
      d' = { d with containers :=
               d.containers ++ [⟨n, te, ds, ty, sch⟩] } := by
  by_cases hc : n = "" ∨ te = ""
  · simp [C4ContainerDiagram.add_container, hc] at h
  · push_neg at hc
    unfold C4ContainerDiagram.add_container at h
    rw [if_neg (by push_neg; exact hc)] at h
    exact ⟨hc, (Except.ok.inj h).symm⟩

lemma con_add_relationship_ok {d d' : C4ContainerDiagram} {s t l : String}
    {pr : Option String} {b : Bool}
    (h : d.add_relationship s t l pr b = .ok d') :
    (s ≠ "" ∧ t ≠ "" ∧ l ≠ "") ∧
      d' = { d with relationships :=
               d.relationships ++ [⟨s, t, l, pr, b⟩] } := by
  by_cases hc : s = "" ∨ t = "" ∨ l = ""
  · simp [C4ContainerDiagram.add_relationship, hc] at h
  · push_neg at hc
    unfold C4ContainerDiagram.add_relationship at h
    rw [if_neg (by push_neg; exact hc)] at h
    exact ⟨hc, (Except.ok.inj h).symm⟩

lemma add_component_ok {d d' : C4ComponentDiagram} {n te : String}
    {ds ifc : Option String} {ty : String}
    (h : d.add_component n te ds ty ifc = .ok d') :
    (n ≠ "" ∧ te ≠ "") ∧
      d' = { d with components :=
               d.components ++ [⟨n, te, ds, ty, ifc⟩] } := by
  by_cases hc : n = "" ∨ te = ""
  · simp [C4ComponentDiagram.add_component, hc] at h
  · push_neg at hc
    unfold C4ComponentDiagram.add_component at h
    rw [if_neg (by push_neg; exact hc)] at h
    exact ⟨hc, (Except.ok.inj h).symm⟩

lemma com_add_relationship_ok {d d' : C4ComponentDiagram} {s t l : String}
    {pr : Option String} {b a : Bool}
    (h : d.add_relationship s t l pr b a = .ok d') :
    (s ≠ "" ∧ t ≠ "" ∧ l ≠ "") ∧
      d' = { d with relationships :=
               d.relationships ++ [⟨s, t, l, pr, b, a⟩] } := by
  by_cases hc : s = "" ∨ t = "" ∨ l = ""
  · simp [C4ComponentDiagram.add_relationship, hc] at h
  · push_neg at hc
    unfold C4ComponentDiagram.add_relationship at h
    rw [if_neg (by push_neg; exact hc)] at h
    exact ⟨hc, (Except.ok.inj h).symm⟩

lemma add_class_ok {d d' : C4CodeDiagram} {n : String} {ds : Option String}
    {at_ me : Option (List String)} {ty : String} {ab ii : Bool}
    (h : d.add_class n ds at_ me ty ab ii = .ok d') :
    n ≠ "" ∧
      d' = { d with classes :=
               d.classes ++ [⟨n, ds, at_.getD [], me.getD [], ty, ab, ii⟩] } := by
  by_cases hn : n = "" <;> simp [C4CodeDiagram.add_class, hn] at h
  exact ⟨hn, h.symm⟩

lemma add_association_ok {d d' : C4CodeDiagram} {c1 c2 : String}
    {lab mu : Option String} {ag cp : Bool}
    (h : d.add_association c1 c2 lab mu ag cp = .ok d') :
    (c1 ≠ "" ∧ c2 ≠ "") ∧
      d' = { d with associations :=
               d.associations ++ [⟨c1, c2, lab, mu, ag, cp⟩] } := by
  by_cases hc : c1 = "" ∨ c2 = ""
  · simp [C4CodeDiagram.add_association, hc] at h
  · push_neg at hc
    unfold C4CodeDiagram.add_association at h
    rw [if_neg (by push_neg; exact hc)] at h
    exact ⟨hc, (Except.ok.inj h).symm⟩

lemma add_inheritance_ok {d d' : C4CodeDiagram} {sub sup : String}
    (h : d.add_inheritance sub sup = .ok d') :
    (sub ≠ "" ∧ sup ≠ "") ∧
      d' = { d with inheritances := d.inheritances ++ [⟨sub, sup⟩] } := by
  by_cases hc : sub = "" ∨ sup = ""
  · simp [C4CodeDiagram.add_inheritance, hc] at h
  · push_neg at hc
    unfold C4CodeDiagram.add_inheritance at h
    rw [if_neg (by push_neg; exact hc)] at h
    exact ⟨hc, (Except.ok.inj h).symm⟩

lemma add_interface_implementation_ok {d d' : C4CodeDiagram}
    {im ifc : String} (h : d.add_interface_implementation im ifc = .ok d') :
    (im ≠ "" ∧ ifc ≠ "") ∧
      d' = { d with interfaces := d.interfaces ++ [⟨im, ifc⟩] } := by
  by_cases hc : im = "" ∨ ifc = ""
  · simp [C4CodeDiagram.add_interface_implementation, hc] at h
  · push_neg at hc
    unfold C4CodeDiagram.add_interface_implementation at h
    rw [if_neg (by push_neg; exact hc)] at h
    exact ⟨hc, (Except.ok.inj h).symm⟩

/-! ## Fold lemmas for the `from_json` loops -/

lemma runAdds_ctx_users (us : List ContextUser) :
    ∀ (s : C4ContextDiagram), (∀ u ∈ us, u.name ≠ "") →
      runAdds (fun s u => s.add_user u.name u.description u.role) s us =
        ({ s with users := s.users ++ us }, none) := by
  induction us with
  | nil => intro s _; simp [runAdds]
  | cons u us ih =>
    intro s h
    have hu : u.name ≠ "" := h u (by simp)
    have hstep : C4ContextDiagram.add_user s u.name u.description u.role =
        .ok { s with users := s.users ++ [u] } := by
      simp [C4ContextDiagram.add_user, hu]
    simp only [runAdds, hstep]
    rw [ih _ (fun v hv => h v (by simp [hv]))]
    simp

lemma runAdds_ctx_users_fail (pre : List ContextUser) (bad : ContextUser)
    (rest : List ContextUser) (hbad : bad.name = "") :
    ∀ (s : C4ContextDiagram), (∀ u ∈ pre, u.name ≠ "") →
      runAdds (fun s u => s.add_user u.name u.description u.role) s
          (pre ++ bad :: rest) =
        ({ s with users := s.users ++ pre },
          some "User name cannot be empty") := by
  induction pre with
  | nil =>
    intro s _
    simp [runAdds, C4ContextDiagram.add_user, hbad]
  | cons u pre ih =>
    intro s hpre
    have hu : u.name ≠ "" := hpre u (by simp)
    have hstep : C4ContextDiagram.add_user s u.name u.description u.role =
        .ok { s with users := s.users ++ [u] } := by
      simp [C4ContextDiagram.add_user, hu]
    simp only [List.cons_append, runAdds, hstep, List.append_eq]
    rw [ih _ (fun v hv => hpre v (by simp [hv]))]
    simp

lemma runAdds_ctx_exts (es : List ContextExternalSystem) :
    ∀ (s : C4ContextDiagram), (∀ e ∈ es, e.name ≠ "") →
      runAdds
          (fun s e => s.add_external_system e.name e.description e.protocol)
          s es =
        ({ s with external_systems := s.external_systems ++ es }, none) := by
  induction es with
  | nil => intro s _; simp [runAdds]
  | cons e es ih =>
    intro s h
    have he : e.name ≠ "" := h e (by simp)
    have hstep : C4ContextDiagram.add_external_system s e.name e.description
        e.protocol =
        .ok { s with external_systems := s.external_systems ++ [e] } := by
      simp [C4ContextDiagram.add_external_system, he]
    simp only [runAdds, hstep]
    rw [ih _ (fun v hv => h v (by simp [hv]))]
    simp

lemma runAdds_ctx_rels (rs : List ContextRelationship) :
    ∀ (s : C4ContextDiagram),
      (∀ r ∈ rs, r.source ≠ "" ∧ r.target ≠ "" ∧ r.label ≠ "") →
      runAdds
          (fun s r => s.add_relationship r.source r.target r.label
            r.bidirectional) s rs =
        ({ s with relationships := s.relationships ++ rs }, none) := by
  induction rs with
  | nil => intro s _; simp [runAdds]
  | cons r rs ih =>
    intro s h
    obtain ⟨h1, h2, h3⟩ := h r (by simp)
    have hstep : C4ContextDiagram.add_relationship s r.source r.target
        r.label r.bidirectional =
        .ok { s with relationships := s.relationships ++ [r] } := by
      simp [C4ContextDiagram.add_relationship, h1, h2, h3]
    simp only [runAdds, hstep]
    rw [ih _ (fun v hv => h v (by simp [hv]))]
    simp

lemma runAdds_con_containers (cs : List Container) :
    ∀ (s : C4ContainerDiagram),
      (∀ c ∈ cs, c.name ≠ "" ∧ c.technology ≠ "") →
      runAdds
          (fun s c => s.add_container c.name c.technology c.description
            c.type c.db_schema) s cs =
        ({ s with containers := s.containers ++ cs }, none) := by
  induction cs with
  | nil => intro s _; simp [runAdds]
  | cons c cs ih =>
    intro s h
    obtain ⟨h1, h2⟩ := h c (by simp)
    have hstep : C4ContainerDiagram.add_container s c.name c.technology
        c.description c.type c.db_schema =
        .ok { s with containers := s.containers ++ [c] } := by
      simp [C4ContainerDiagram.add_container, h1, h2]
    simp only [runAdds, hstep]
    rw [ih _ (fun v hv => h v (by simp [hv]))]
    simp

lemma runAdds_con_rels (rs : List ContainerRelationship) :
    ∀ (s : C4ContainerDiagram),
      (∀ r ∈ rs, r.source ≠ "" ∧ r.target ≠ "" ∧ r.label ≠ "") →
      runAdds
          (fun s r => s.add_relationship r.source r.target r.label
            r.protocol r.bidirectional) s rs =
        ({ s with relationships := s.relationships ++ rs }, none) := by
  induction rs with
  | nil => intro s _; simp [runAdds]
  | cons r rs ih =>
    intro s h
    obtain ⟨h1, h2, h3⟩ := h r (by simp)
    have hstep : C4ContainerDiagram.add_relationship s r.source r.target
        r.label r.protocol r.bidirectional =
        .ok { s with relationships := s.relationships ++ [r] } := by
      simp [C4ContainerDiagram.add_relationship, h1, h2, h3]
    simp only [runAdds, hstep]
    rw [ih _ (fun v hv => h v (by simp [hv]))]
    simp

lemma runAdds_com_components (cs : List Component) :
    ∀ (s : C4ComponentDiagram),
      (∀ c ∈ cs, c.name ≠ "" ∧ c.technology ≠ "") →
      runAdds
          (fun s c => s.add_component c.name c.technology c.description
            c.type c.interface) s cs =
        ({ s with components := s.components ++ cs }, none) := by
  induction cs with
  | nil => intro s _; simp [runAdds]
  | cons c cs ih =>
    intro s h
    obtain ⟨h1, h2⟩ := h c (by simp)
    have hstep : C4ComponentDiagram.add_component s c.name c.technology
        c.description c.type c.interface =
        .ok { s with components := s.components ++ [c] } := by
      simp [C4ComponentDiagram.add_component, h1, h2]
    simp only [runAdds, hstep]
    rw [ih _ (fun v hv => h v (by simp [hv]))]
    simp

lemma runAdds_com_rels (rs : List ComponentRelationship) :
    ∀ (s : C4ComponentDiagram),
      (∀ r ∈ rs, r.source ≠ "" ∧ r.target ≠ "" ∧ r.label ≠ "") →
      runAdds
          (fun s r => s.add_relationship r.source r.target r.label
            r.protocol r.bidirectional r.async) s rs =
        ({ s with relationships := s.relationships ++ rs }, none) := by
  induction rs with
  | nil => intro s _; simp [runAdds]
  | cons r rs ih =>
    intro s h
    obtain ⟨h1, h2, h3⟩ := h r (by simp)
    have hstep : C4ComponentDiagram.add_relationship s r.source r.target
        r.label r.protocol r.bidirectional r.async =
        .ok { s with relationships := s.relationships ++ [r] } := by
      simp [C4ComponentDiagram.add_relationship, h1, h2, h3]
    simp only [runAdds, hstep]
    rw [ih _ (fun v hv => h v (by simp [hv]))]
    simp

lemma runAdds_code_classes (cs : List CodeClass) :
    ∀ (s : C4CodeDiagram), (∀ c ∈ cs, c.name ≠ "") →
      runAdds
          (fun s c => s.add_class c.name c.description (some c.attributes)
            (some c.methods) c.type c.is_abstract c.is_interface) s cs =
        ({ s with classes := s.classes ++ cs }, none) := by
  induction cs with
  | nil => intro s _; simp [runAdds]
  | cons c cs ih =>
    intro s h
    have hc : c.name ≠ "" := h c (by simp)
    have hstep : C4CodeDiagram.add_class s c.name c.description
        (some c.attributes) (some c.methods) c.type c.is_abstract
        c.is_interface =
        .ok { s with classes := s.classes ++ [c] } := by
      simp [C4CodeDiagram.add_class, hc]
    simp only [runAdds, hstep]
    rw [ih _ (fun v hv => h v (by simp [hv]))]
    simp

lemma runAdds_code_assocs (as_ : List CodeAssociation) :
    ∀ (s : C4CodeDiagram),
      (∀ a ∈ as_, a.class1 ≠ "" ∧ a.class2 ≠ "") →
      runAdds
          (fun s a => s.add_association a.class1 a.class2 a.label
            a.multiplicity a.aggregation a.composition) s as_ =
        ({ s with associations := s.associations ++ as_ }, none) := by
  induction as_ with
  | nil => intro s _; simp [runAdds]
  | cons a as_ ih =>
    intro s h
    obtain ⟨h1, h2⟩ := h a (by simp)
    have hstep : C4CodeDiagram.add_association s a.class1 a.class2 a.label
        a.multiplicity a.aggregation a.composition =
        .ok { s with associations := s.associations ++ [a] } := by
      simp [C4CodeDiagram.add_association, h1, h2]
    simp only [runAdds, hstep]
    rw [ih _ (fun v hv => h v (by simp [hv]))]
    simp

lemma runAdds_code_inhs (is_ : List CodeInheritance) :
    ∀ (s : C4CodeDiagram),
      (∀ i ∈ is_, i.subclass ≠ "" ∧ i.superclass ≠ "") →
      runAdds (fun s i => s.add_inheritance i.subclass i.superclass) s is_ =
        ({ s with inheritances := s.inheritances ++ is_ }, none) := by
  induction is_ with
  | nil => intro s _; simp [runAdds]
  | cons i is_ ih =>
    intro s h
    obtain ⟨h1, h2⟩ := h i (by simp)
    have hstep : C4CodeDiagram.add_inheritance s i.subclass i.superclass =
        .ok { s with inheritances := s.inheritances ++ [i] } := by
      simp [C4CodeDiagram.add_inheritance, h1, h2]
    simp only [runAdds, hstep]
    rw [ih _ (fun v hv => h v (by simp [hv]))]
    simp

lemma runAdds_code_intfs (js : List CodeInterfaceImpl) :
    ∀ (s : C4CodeDiagram),
      (∀ j ∈ js, j.implementor ≠ "" ∧ j.interface ≠ "") →
      runAdds
          (fun s j => s.add_interface_implementation j.implementor
            j.interface) s js =
        ({ s with interfaces := s.interfaces ++ js }, none) := by
  induction js with
  | nil => intro s _; simp [runAdds]
  | cons j js ih =>
    intro s h
    obtain ⟨h1, h2⟩ := h j (by simp)
    have hstep : C4CodeDiagram.add_interface_implementation s j.implementor
        j.interface =
        .ok { s with interfaces := s.interfaces ++ [j] } := by
      simp [C4CodeDiagram.add_interface_implementation, h1, h2]
    simp only [runAdds, hstep]
    rw [ih _ (fun v hv => h v (by simp [hv]))]
    simp

/-! ## Reachability through the public add-operations -/

/-- Every required string field of a context diagram is non-empty. -/
def ContextWF (d : C4ContextDiagram) : Prop :=
  (∀ u ∈ d.users, u.name ≠ "") ∧
  (∀ e ∈ d.external_systems, e.name ≠ "") ∧
  (∀ r ∈ d.relationships, r.source ≠ "" ∧ r.target ≠ "" ∧ r.label ≠ "")

/-- Every required string field of a container diagram is non-empty. -/
def ContainerWF (d : C4ContainerDiagram) : Prop :=
  (∀ c ∈ d.containers, c.name ≠ "" ∧ c.technology ≠ "") ∧
  (∀ r ∈ d.relationships, r.source ≠ "" ∧ r.target ≠ "" ∧ r.label ≠ "")

/-- Every required string field of a component diagram is non-empty. -/
def ComponentWF (d : C4ComponentDiagram) : Prop :=
  (∀ c ∈ d.components, c.name ≠ "" ∧ c.technology ≠ "") ∧
  (∀ r ∈ d.relationships, r.source ≠ "" ∧ r.target ≠ "" ∧ r.label ≠ "")

/-- Every required string field of a code diagram is non-empty. -/
def CodeWF (d : C4CodeDiagram) : Prop :=
  (∀ c ∈ d.classes, c.name ≠ "") ∧
  (∀ a ∈ d.associations, a.class1 ≠ "" ∧ a.class2 ≠ "") ∧
  (∀ i ∈ d.inheritances, i.subclass ≠ "" ∧ i.superclass ≠ "") ∧
  (∀ j ∈ d.interfaces, j.implementor ≠ "" ∧ j.interface ≠ "")

/-- Context diagrams built solely through the public add-operations on a
fresh instance. -/
inductive ContextBuilt : C4ContextDiagram → Prop
  | init (n f : String) : ContextBuilt (C4ContextDiagram.init n f)
  | add_user (d d' : C4ContextDiagram) (n : String) (ds rl : Option String) :
      ContextBuilt d → d.add_user n ds rl = .ok d' → ContextBuilt d'
  | add_external_system (d d' : C4ContextDiagram) (n : String)
      (ds pr : Option String) :
      ContextBuilt d → d.add_external_system n ds pr = .ok d' →
      ContextBuilt d'
  | add_relationship (d d' : C4ContextDiagram) (s t l : String) (b : Bool) :
      ContextBuilt d → d.add_relationship s t l b = .ok d' → ContextBuilt d'

/-- Container diagrams built solely through the public add-operations on a
fresh instance. -/
inductive ContainerBuilt : C4ContainerDiagram → Prop
  | init (n f : String) : ContainerBuilt (C4ContainerDiagram.init n f)
  | add_container (d d' : C4ContainerDiagram) (n te : String)
      (ds : Option String) (ty : String) (sch : Option String) :
      ContainerBuilt d → d.add_container n te ds ty sch = .ok d' →
      ContainerBuilt d'
  | add_relationship (d d' : C4ContainerDiagram) (s t l : String)
      (pr : Option String) (b : Bool) :
      ContainerBuilt d → d.add_relationship s t l pr b = .ok d' →
      ContainerBuilt d'

/-- Component diagrams built solely through the public add-operations on a
fresh instance. -/
inductive ComponentBuilt : C4ComponentDiagram → Prop
  | init (n f : String) : ComponentBuilt (C4ComponentDiagram.init n f)
  | add_component (d d' : C4ComponentDiagram) (n te : String)
      (ds : Option String) (ty : String) (ifc : Option String) :
      ComponentBuilt d → d.add_component n te ds ty ifc = .ok d' →
      ComponentBuilt d'
  | add_relationship (d d' : C4ComponentDiagram) (s t l : String)
      (pr : Option String) (b a : Bool) :
      ComponentBuilt d → d.add_relationship s t l pr b a = .ok d' →
      ComponentBuilt d'

/-- Code diagrams built solely through the public add-operations on a
fresh instance. -/
inductive CodeBuilt : C4CodeDiagram → Prop
  | init (n f : String) : CodeBuilt (C4CodeDiagram.init n f)
  | add_class (d d' : C4CodeDiagram) (n : String) (ds : Option String)
      (at_ me : Option (List String)) (ty : String) (ab ii : Bool) :
      CodeBuilt d → d.add_class n ds at_ me ty ab ii = .ok d' → CodeBuilt d'
  | add_association (d d' : C4CodeDiagram) (c1 c2 : String)
      (lab mu : Option String) (ag cp : Bool) :
      CodeBuilt d → d.add_association c1 c2 lab mu ag cp = .ok d' →
      CodeBuilt d'
  | add_inheritance (d d' : C4CodeDiagram) (sub sup : String) :
      CodeBuilt d → d.add_inheritance sub sup = .ok d' → CodeBuilt d'
  | add_interface_implementation (d d' : C4CodeDiagram) (im ifc : String) :
      CodeBuilt d → d.add_interface_implementation im ifc = .ok d' →
      CodeBuilt d'

lemma contextWF_of_built {d : C4ContextDiagram} (h : ContextBuilt d) :
    ContextWF d := by
  induction h with
  | init n f =>
    refine ⟨?_, ?_, ?_⟩ <;> simp [C4ContextDiagram.init]
  | add_user d d' n ds rl hb heq ih =>
    obtain ⟨hn, rfl⟩ := add_user_ok heq
    refine ⟨?_, ih.2.1, ih.2.2⟩
    intro u hu
    rcases List.mem_append.1 hu with h1 | h1
    · exact ih.1 u h1
    · simp at h1; subst h1; exact hn
  | add_external_system d d' n ds pr hb heq ih =>
    obtain ⟨hn, rfl⟩ := add_external_system_ok heq
    refine ⟨ih.1, ?_, ih.2.2⟩
    intro e he
    rcases List.mem_append.1 he with h1 | h1
    · exact ih.2.1 e h1
    · simp at h1; subst h1; exact hn
  | add_relationship d d' s t l b hb heq ih =>
    obtain ⟨hstl, rfl⟩ := ctx_add_relationship_ok heq
    refine ⟨ih.1, ih.2.1, ?_⟩
    intro r hr
    rcases List.mem_append.1 hr with h1 | h1
    · exact ih.2.2 r h1
    · simp at h1; subst h1; exact hstl

lemma containerWF_of_built {d : C4ContainerDiagram} (h : ContainerBuilt d) :
    ContainerWF d := by
  induction h with
  | init n f =>
    refine ⟨?_, ?_⟩ <;> simp [C4ContainerDiagram.init]
  | add_container d d' n te ds ty sch hb heq ih =>
    obtain ⟨hnt, rfl⟩ := add_container_ok heq
    refine ⟨?_, ih.2⟩
    intro c hc
    rcases List.mem_append.1 hc with h1 | h1
    · exact ih.1 c h1
    · simp at h1; subst h1; exact hnt
  | add_relationship d d' s t l pr b hb heq ih =>
    obtain ⟨hstl, rfl⟩ := con_add_relationship_ok heq
    refine ⟨ih.1, ?_⟩
    intro r hr
    rcases List.mem_append.1 hr with h1 | h1
    · exact ih.2 r h1
    · simp at h1; subst h1; exact hstl

lemma componentWF_of_built {d : C4ComponentDiagram}
    (h : ComponentBuilt d) : ComponentWF d := by
  induction h with
  | init n f =>
    refine ⟨?_, ?_⟩ <;> simp [C4ComponentDiagram.init]
  | add_component d d' n te ds ty ifc hb heq ih =>
    obtain ⟨hnt, rfl⟩ := add_component_ok heq
    refine ⟨?_, ih.2⟩
    intro c hc
    rcases List.mem_append.1 hc with h1 | h1
    · exact ih.1 c h1
    · simp at h1; subst h1; exact hnt
  | add_relationship d d' s t l pr b a hb heq ih =>
    obtain ⟨hstl, rfl⟩ := com_add_relationship_ok heq
    refine ⟨ih.1, ?_⟩
    intro r hr
    rcases List.mem_append.1 hr with h1 | h1
    · exact ih.2 r h1
    · simp at h1; subst h1; exact hstl

lemma codeWF_of_built {d : C4CodeDiagram} (h : CodeBuilt d) : CodeWF d := by
  induction h with
  | init n f =>
    refine ⟨?_, ?_, ?_, ?_⟩ <;> simp [C4CodeDiagram.init]
  | add_class d d' n ds at_ me ty ab ii hb heq ih =>
    obtain ⟨hn, rfl⟩ := add_class_ok heq
    refine ⟨?_, ih.2.1, ih.2.2.1, ih.2.2.2⟩
    intro c hc
    rcases List.mem_append.1 hc with h1 | h1
    · exact ih.1 c h1
    · simp at h1; subst h1; exact hn
  | add_association d d' c1 c2 lab mu ag cp hb heq ih =>
    obtain ⟨hcc, rfl⟩ := add_association_ok heq
    refine ⟨ih.1, ?_, ih.2.2.1, ih.2.2.2⟩
    intro a ha
    rcases List.mem_append.1 ha with h1 | h1
    · exact ih.2.1 a h1
    · simp at h1; subst h1; exact hcc
  | add_inheritance d d' sub sup hb heq ih =>
    obtain ⟨hss, rfl⟩ := add_inheritance_ok heq
    refine ⟨ih.1, ih.2.1, ?_, ih.2.2.2⟩
    intro i hi
    rcases List.mem_append.1 hi with h1 | h1
    · exact ih.2.2.1 i h1
    · simp at h1; subst h1; exact hss
  | add_interface_implementation d d' im ifc hb heq ih =>
    obtain ⟨hii, rfl⟩ := add_interface_implementation_ok heq
    refine ⟨ih.1, ih.2.1, ih.2.2.1, ?_⟩
    intro j hj
    rcases List.mem_append.1 hj with h1 | h1
    · exact ih.2.2.2 j h1
    · simp at h1; subst h1; exact hii

/-! ## Round-trip lemmas -/

lemma context_round_trip_aux {d : C4ContextDiagram} (h : ContextWF d)
    (n f : String) :
    (C4ContextDiagram.init n f).from_json d.to_json =
      (⟨d.system_name, f, d.users, d.external_systems, d.relationships⟩,
        none) := by
  obtain ⟨h1, h2, h3⟩ := h
  simp only [C4ContextDiagram.from_json, C4ContextDiagram.to_json,
    C4ContextDiagram.init]
  rw [runAdds_ctx_users _ _ h1]
  simp only [pyStep]
  rw [runAdds_ctx_exts _ _ h2]
  simp only [pyStep]
  rw [runAdds_ctx_rels _ _ h3]
  simp

lemma container_round_trip_aux {d : C4ContainerDiagram} (h : ContainerWF d)
    (n f : String) :
    (C4ContainerDiagram.init n f).from_json d.to_json =
      (⟨d.system_name, f, d.containers, d.relationships⟩, none) := by
  obtain ⟨h1, h2⟩ := h
  simp only [C4ContainerDiagram.from_json, C4ContainerDiagram.to_json,
    C4ContainerDiagram.init]
  rw [runAdds_con_containers _ _ h1]
  simp only [pyStep]
  rw [runAdds_con_rels _ _ h2]
  simp

lemma component_round_trip_aux {d : C4ComponentDiagram} (h : ComponentWF d)
    (n f : String) :
    (C4ComponentDiagram.init n f).from_json d.to_json =
      (⟨d.container_name, f, d.components, d.relationships⟩, none) := by
  obtain ⟨h1, h2⟩ := h
  simp only [C4ComponentDiagram.from_json, C4ComponentDiagram.to_json,
    C4ComponentDiagram.init]
  rw [runAdds_com_components _ _ h1]
  simp only [pyStep]
  rw [runAdds_com_rels _ _ h2]
  simp

lemma code_round_trip_aux {d : C4CodeDiagram} (h : CodeWF d)
    (n f : String) :
    (C4CodeDiagram.init n f).from_json d.to_json =
      (⟨d.component_name, f, d.classes, d.associations, d.inheritances,
        d.interfaces⟩, none) := by
  obtain ⟨h1, h2, h3, h4⟩ := h
  simp only [C4CodeDiagram.from_json, C4CodeDiagram.to_json,
    C4CodeDiagram.init]
  rw [runAdds_code_classes _ _ h1]
  simp only [pyStep]
  rw [runAdds_code_assocs _ _ h2]
  simp only [pyStep]
  rw [runAdds_code_inhs _ _ h3]
  simp only [pyStep]
  rw [runAdds_code_intfs _ _ h4]
  simp

/-! ## Render lemmas -/

/-- The value of the code grid layout in the non-degenerate case. -/
def codeGridList (cs : List CodeClass) : List (String × (ℚ × ℚ)) :=
  let n := cs.length
  let cols := ceilSqrtPy n
  let rows := (n + cols - 1) / cols
  let start_x : ℚ := -(((cols : ℚ) - 1) * 6 / 2)
  let start_y : ℚ := ((rows : ℚ) - 1) * 5 / 2
  cs.enum.map (fun p =>
    (p.2.name,
     (start_x + ((p.1 % cols : ℕ) : ℚ) * 6,
      start_y - ((p.1 / cols : ℕ) : ℚ) * 5)))

lemma codeGridList_keys (cs : List CodeClass) :
    (codeGridList cs).map Prod.fst = cs.map CodeClass.name :=
  enum_map_keys _ _ cs

lemma codePositions_eq {d : C4CodeDiagram} (h : d.classes ≠ []) :
    d.calculate_positions = some (codeGridList d.classes) := by
  have hne : d.classes.isEmpty = false := by
    cases hc : d.classes.isEmpty
    · rfl
    · exact absurd (List.isEmpty_iff.1 hc) h
  simp [C4CodeDiagram.calculate_positions, codeGridList, hne]

lemma container_generate_eq (trig : ℚ → ℚ × ℚ) {d : C4ContainerDiagram}
    {fmt : String} (hf : formatSupported fmt) (hne : d.containers ≠ []) :
    d.generate trig fmt =
      .ok ⟨"diagrams_output/" ++ d.output_filename ++ "." ++ fmt,
           containerLayoutList trig d.containers,
           d.relationships.filterMap
             (containerEdge (containerLayoutList trig d.containers))⟩ := by
  have hne' : d.containers.isEmpty = false := by
    cases hc : d.containers.isEmpty
    · rfl
    · exact absurd (List.isEmpty_iff.1 hc) hne
  unfold C4ContainerDiagram.generate
  rw [if_pos hf, if_neg (by simp [hne']), containerPositions_eq trig hne]

lemma component_generate_eq (trig : ℚ → ℚ × ℚ) {d : C4ComponentDiagram}
    {fmt : String} (hf : formatSupported fmt) (hne : d.components ≠ []) :
    d.generate trig fmt =
      .ok ⟨"diagrams_output/" ++ d.output_filename ++ "." ++ fmt,
           componentLayoutList trig d.components,
           d.relationships.filterMap
             (componentEdge (componentLayoutList trig d.components))⟩ := by
  have hne' : d.components.isEmpty = false := by
    cases hc : d.components.isEmpty
    · rfl
    · exact absurd (List.isEmpty_iff.1 hc) hne
  unfold C4ComponentDiagram.generate
  rw [if_pos hf, if_neg (by simp [hne']), componentPositions_eq trig hne]

lemma code_generate_err {d : C4CodeDiagram} {fmt : String}
    (hf : formatSupported fmt) (hne : d.classes ≠ []) :
    d.generate fmt = .error C4CodeDiagram.draw_class_error := by
  have hne' : d.classes.isEmpty = false := by
    cases hc : d.classes.isEmpty
    · rfl
    · exact absurd (List.isEmpty_iff.1 hc) hne
  unfold C4CodeDiagram.generate
  rw [if_pos hf, if_neg (by simp [hne']), codePositions_eq hne]

lemma containerEdge_eq_none {ps : List (String × (ℚ × ℚ))}
    {r : ContainerRelationship}
    (h : dictGet ps r.source = none ∨ dictGet ps r.target = none) :
    containerEdge ps r = none := by
  rcases h with h | h
  · simp [containerEdge, h]
  · cases hs : dictGet ps r.source <;> simp [containerEdge, h, hs]

lemma containerEdge_isSome {ps : List (String × (ℚ × ℚ))}
    {r : ContainerRelationship} (h1 : (dictGet ps r.source).isSome)
    (h2 : (dictGet ps r.target).isSome) :
    (containerEdge ps r).isSome := by
  obtain ⟨s, hs⟩ := Option.isSome_iff_exists.1 h1
  obtain ⟨t, ht⟩ := Option.isSome_iff_exists.1 h2
  simp [containerEdge, hs, ht]

lemma componentEdge_eq_none {ps : List (String × (ℚ × ℚ))}
    {r : ComponentRelationship}
    (h : dictGet ps r.source = none ∨ dictGet ps r.target = none) :
    componentEdge ps r = none := by
  rcases h with h | h
  · simp [componentEdge, h]
  · cases hs : dictGet ps r.source <;> simp [componentEdge, h, hs]

lemma codeAssocEdge_eq_none {ps : List (String × (ℚ × ℚ))}
    {a : CodeAssociation}
    (h : dictGet ps a.class1 = none ∨ dictGet ps a.class2 = none) :
    codeAssocEdge ps a = none := by
  rcases h with h | h
  · simp [codeAssocEdge, h]
  · cases hs : dictGet ps a.class1 <;> simp [codeAssocEdge, h, hs]

lemma codeAssocEdge_isSome {ps : List (String × (ℚ × ℚ))}
    {a : CodeAssociation} (h1 : (dictGet ps a.class1).isSome)
    (h2 : (dictGet ps a.class2).isSome) :
    (codeAssocEdge ps a).isSome := by
  obtain ⟨s, hs⟩ := Option.isSome_iff_exists.1 h1
  obtain ⟨t, ht⟩ := Option.isSome_iff_exists.1 h2
  simp [codeAssocEdge, hs, ht]

lemma containerEdge_label {ps : List (String × (ℚ × ℚ))}
    {r : ContainerRelationship} {e : DrawnEdge}
    (h : containerEdge ps r = some e) :
    e.labelPos = some (midPt e.src e.tgt) := by
  unfold containerEdge at h
  cases hs : dictGet ps r.source <;> rw [hs] at h
  · simp at h
  · cases ht : dictGet ps r.target <;> rw [ht] at h
    · simp at h
    · obtain rfl := Option.some.inj h
      rfl

lemma componentEdge_label {ps : List (String × (ℚ × ℚ))}
    {r : ComponentRelationship} {e : DrawnEdge}
    (h : componentEdge ps r = some e) :
    e.labelPos = some (midPt e.src e.tgt) := by
  unfold componentEdge at h
  cases hs : dictGet ps r.source <;> rw [hs] at h
  · simp at h
  · cases ht : dictGet ps r.target <;> rw [ht] at h
    · simp at h
    · obtain rfl := Option.some.inj h
      rfl

lemma codeAssocEdge_label {ps : List (String × (ℚ × ℚ))}
    {a : CodeAssociation} {e : DrawnEdge}
    (h : codeAssocEdge ps a = some e) {p : ℚ × ℚ}
    (hp : e.labelPos = some p) :
    p = midPt e.src e.tgt := by
  unfold codeAssocEdge at h
  cases hs : dictGet ps a.class1 <;> rw [hs] at h
  · simp at h
  · cases ht : dictGet ps a.class2 <;> rw [ht] at h
    · simp at h
    · obtain rfl := Option.some.inj h
      simp only at hp
      obtain ⟨l, hl, hfl⟩ := Option.map_eq_some'.1 hp
      exact hfl.symm

lemma codeInhEdge_label {ps : List (String × (ℚ × ℚ))}
    {i : CodeInheritance} {e : DrawnEdge} (h : codeInhEdge ps i = some e) :
    e.labelPos = none := by
  unfold codeInhEdge at h
  cases hs : dictGet ps i.subclass <;> rw [hs] at h
  · simp at h
  · cases ht : dictGet ps i.superclass <;> rw [ht] at h
    · simp at h
    · obtain rfl := Option.some.inj h
      rfl

lemma codeIntfEdge_label {ps : List (String × (ℚ × ℚ))}
    {j : CodeInterfaceImpl} {e : DrawnEdge} (h : codeIntfEdge ps j = some e) :
    e.labelPos = none := by
  unfold codeIntfEdge at h
  cases hs : dictGet ps j.implementor <;> rw [hs] at h
  · simp at h
  · cases ht : dictGet ps j.interface <;> rw [ht] at h
    · simp at h
    · obtain rfl := Option.some.inj h
      rfl

lemma container_generate_ok {trig : ℚ → ℚ × ℚ} {d : C4ContainerDiagram}
    {fmt : String} {out : ContainerRender}
    (h : d.generate trig fmt = .ok out) :
    out.edges = d.relationships.filterMap
      (containerEdge (containerLayoutList trig d.containers)) := by
  by_cases hf : formatSupported fmt
  · by_cases hne : d.containers = []
    · have he : d.containers.isEmpty = true := by simp [hne]
      simp [C4ContainerDiagram.generate, hf, he] at h
    · rw [container_generate_eq trig hf hne] at h
      rw [← Except.ok.inj h]
  · simp [C4ContainerDiagram.generate, hf] at h

lemma component_generate_ok {trig : ℚ → ℚ × ℚ} {d : C4ComponentDiagram}
    {fmt : String} {out : ComponentRender}
    (h : d.generate trig fmt = .ok out) :
    out.edges = d.relationships.filterMap
      (componentEdge (componentLayoutList trig d.components)) := by
  by_cases hf : formatSupported fmt
  · by_cases hne : d.components = []
    · have he : d.components.isEmpty = true := by simp [hne]
      simp [C4ComponentDiagram.generate, hf, he] at h
    · rw [component_generate_eq trig hf hne] at h
      rw [← Except.ok.inj h]
  · simp [C4ComponentDiagram.generate, hf] at h

lemma code_generate_not_ok {d : C4CodeDiagram} {fmt : String}
    {out : CodeRender} : d.generate fmt ≠ .ok out := by
  unfold C4CodeDiagram.generate
  by_cases hf : formatSupported fmt
  · rw [if_pos hf]
    by_cases he : d.classes.isEmpty = true
    · rw [if_pos he]
      simp
    · rw [if_neg he]
      cases hcp : d.calculate_positions <;> simp
  · rw [if_neg hf]
    simp

/-! ## Claim theorems -/

deriving instance DecidableEq for Except

/-- A concrete stand-in for the (cosine, sine) function used by witnesses. -/
def trigConst : ℚ → ℚ × ℚ := fun _ => (1, 0)

/-- C1: for every diagram built solely through the public add-operations
on a fresh instance, feeding the document produced by `to_json` into
`from_json` on another fresh instance of the same level reconstructs
entity and relationship collections equal in content and in order to the
original's, with no error, at all four levels. -/
theorem c1_round_trip :
    (∀ d : C4ContextDiagram, ContextBuilt d → ∀ n f : String,
      (C4ContextDiagram.init n f).from_json d.to_json =
        (⟨d.system_name, f, d.users, d.external_systems,
          d.relationships⟩, none)) ∧
    (∀ d : C4ContainerDiagram, ContainerBuilt d → ∀ n f : String,
      (C4ContainerDiagram.init n f).from_json d.to_json =
        (⟨d.system_name, f, d.containers, d.relationships⟩, none)) ∧
    (∀ d : C4ComponentDiagram, ComponentBuilt d → ∀ n f : String,
      (C4ComponentDiagram.init n f).from_json d.to_json =
        (⟨d.container_name, f, d.components, d.relationships⟩, none)) ∧
    (∀ d : C4CodeDiagram, CodeBuilt d → ∀ n f : String,
      (C4CodeDiagram.init n f).from_json d.to_json =
        (⟨d.component_name, f, d.classes, d.associations, d.inheritances,
          d.interfaces⟩, none)) := by
  refine ⟨?_, ?_, ?_, ?_⟩
  · intro d h n f; exact context_round_trip_aux (contextWF_of_built h) n f
  · intro d h n f; exact container_round_trip_aux (containerWF_of_built h) n f
  · intro d h n f
    exact component_round_trip_aux (componentWF_of_built h) n f
  · intro d h n f; exact code_round_trip_aux (codeWF_of_built h) n f

/-- A small context diagram built by three public add-operations. -/
def ctxSample : C4ContextDiagram :=
  ⟨"S", "f", [⟨"U", none, some "Admin"⟩], [⟨"E", none, some "HTTP"⟩],
   [⟨"U", "S", "calls", false⟩]⟩

lemma ctxSample_built : ContextBuilt ctxSample :=
  ContextBuilt.add_relationship _ _ "U" "S" "calls" false
    (ContextBuilt.add_external_system _ _ "E" none (some "HTTP")
      (ContextBuilt.add_user _ _ "U" none (some "Admin")
        (ContextBuilt.init "S" "f") (by rfl)) (by rfl)) (by rfl)

/-- A small container diagram built by two public add-operations. -/
def conSample : C4ContainerDiagram :=
  ⟨"S", "f", [⟨"Web", "React", none, "Application", none⟩],
   [⟨"Web", "API", "calls", some "HTTPS", false⟩]⟩

lemma conSample_built : ContainerBuilt conSample :=
  ContainerBuilt.add_relationship _ _ "Web" "API" "calls" (some "HTTPS")
    false
    (ContainerBuilt.add_container _ _ "Web" "React" none "Application" none
      (ContainerBuilt.init "S" "f") (by rfl)) (by rfl)

/-- A small component diagram built by two public add-operations. -/
def comSample : C4ComponentDiagram :=
  ⟨"C", "f", [⟨"Svc", "Spring", none, "Service", none⟩],
   [⟨"Svc", "Repo", "persists", some "JPA", false, true⟩]⟩

lemma comSample_built : ComponentBuilt comSample :=
  ComponentBuilt.add_relationship _ _ "Svc" "Repo" "persists" (some "JPA")
    false true
    (ComponentBuilt.add_component _ _ "Svc" "Spring" none "Service" none
      (ComponentBuilt.init "C" "f") (by rfl)) (by rfl)

/-- A small code diagram built by four public add-operations. -/
def codeSample : C4CodeDiagram :=
  ⟨"K", "f", [⟨"A", none, ["x: int"], [], "Class", false, false⟩],
   [⟨"A", "B", some "uses", none, false, false⟩], [⟨"A", "Base"⟩],
   [⟨"A", "IFace"⟩]⟩

lemma codeSample_built : CodeBuilt codeSample :=
  CodeBuilt.add_interface_implementation _ _ "A" "IFace"
    (CodeBuilt.add_inheritance _ _ "A" "Base"
      (CodeBuilt.add_association _ _ "A" "B" (some "uses") none false false
        (CodeBuilt.add_class _ _ "A" none (some ["x: int"]) none "Class"
          false false (CodeBuilt.init "K" "f") (by rfl)) (by rfl))
      (by rfl)) (by rfl)

/-- C1 witness: the round-trip law applied to the four sample diagrams. -/
theorem c1_round_trip_witness :
    (C4ContextDiagram.init "T" "g").from_json ctxSample.to_json =
      (⟨"S", "g", [⟨"U", none, some "Admin"⟩], [⟨"E", none, some "HTTP"⟩],
        [⟨"U", "S", "calls", false⟩]⟩, none) ∧
    (C4ContainerDiagram.init "T" "g").from_json conSample.to_json =
      (⟨"S", "g", [⟨"Web", "React", none, "Application", none⟩],
        [⟨"Web", "API", "calls", some "HTTPS", false⟩]⟩, none) ∧
    (C4ComponentDiagram.init "T" "g").from_json comSample.to_json =
      (⟨"C", "g", [⟨"Svc", "Spring", none, "Service", none⟩],
        [⟨"Svc", "Repo", "persists", some "JPA", false, true⟩]⟩, none) ∧
    (C4CodeDiagram.init "T" "g").from_json codeSample.to_json =
      (⟨"K", "g", [⟨"A", none, ["x: int"], [], "Class", false, false⟩],
        [⟨"A", "B", some "uses", none, false, false⟩], [⟨"A", "Base"⟩],
        [⟨"A", "IFace"⟩]⟩, none) :=
  ⟨c1_round_trip.1 ctxSample ctxSample_built "T" "g",
   c1_round_trip.2.1 conSample conSample_built "T" "g",
   c1_round_trip.2.2.1 comSample comSample_built "T" "g",
   c1_round_trip.2.2.2 codeSample codeSample_built "T" "g"⟩

/-- C3 counterexample: `add_association` with `label` absent (`None`)
succeeds and appends the association, instead of failing with a
`ValidationError` as the claim requires of every relationship-adding
operation. -/
theorem c3_counterexample :
    (C4CodeDiagram.init "S" "f").add_association "A" "B" none none
        false false =
      .ok ⟨"S", "f", [], [⟨"A", "B", none, none, false, false⟩], [], []⟩ := by
  rfl

/-- C3 amended: `add_relationship` at the context, container and
component levels fails with a `ValidationError` whenever source, target
or label is empty, and `add_association` at the code level fails whenever
either class name is empty — but accepts an absent label, appending the
association. An error result leaves the diagram (and so the relationship
collection) unchanged, since in the source the `raise` precedes the
append. -/
theorem c3_validation :
    (∀ (d : C4ContextDiagram) (s t l : String) (b : Bool),
      s = "" ∨ t = "" ∨ l = "" →
      d.add_relationship s t l b =
        .error "Source, target and label cannot be empty") ∧
    (∀ (d : C4ContainerDiagram) (s t l : String) (pr : Option String)
        (b : Bool),
      s = "" ∨ t = "" ∨ l = "" →
      d.add_relationship s t l pr b =
        .error "Source, target and label cannot be empty") ∧
    (∀ (d : C4ComponentDiagram) (s t l : String) (pr : Option String)
        (b a : Bool),
      s = "" ∨ t = "" ∨ l = "" →
      d.add_relationship s t l pr b a =
        .error "Source, target and label cannot be empty") ∧
    (∀ (d : C4CodeDiagram) (c1 c2 : String) (lab mu : Option String)
        (ag cp : Bool),
      c1 = "" ∨ c2 = "" →
      d.add_association c1 c2 lab mu ag cp =
        .error "Class names cannot be empty") ∧
    (∀ (d : C4CodeDiagram) (c1 c2 : String) (mu : Option String)
        (ag cp : Bool),
      c1 ≠ "" → c2 ≠ "" →
      d.add_association c1 c2 none mu ag cp =
        .ok { d with associations :=
                d.associations ++ [⟨c1, c2, none, mu, ag, cp⟩] }) := by
  refine ⟨?_, ?_, ?_, ?_, ?_⟩
  · intro d s t l b h
    unfold C4ContextDiagram.add_relationship
    rw [if_pos h]
  · intro d s t l pr b h
    unfold C4ContainerDiagram.add_relationship
    rw [if_pos h]
  · intro d s t l pr b a h
    unfold C4ComponentDiagram.add_relationship
    rw [if_pos h]
  · intro d c1 c2 lab mu ag cp h
    unfold C4CodeDiagram.add_association
    rw [if_pos h]
  · intro d c1 c2 mu ag cp h1 h2
    unfold C4CodeDiagram.add_association
    rw [if_neg (by simp [h1, h2])]

/-- C3 witness: the amended validation law applied at concrete inputs. -/
theorem c3_validation_witness :
    (C4ContextDiagram.init "S" "f").add_relationship "" "B" "l" false =
      .error "Source, target and label cannot be empty" ∧
    (C4ContainerDiagram.init "S" "f").add_relationship "A" "" "l" none
        false =
      .error "Source, target and label cannot be empty" ∧
    (C4ComponentDiagram.init "S" "f").add_relationship "A" "B" "" none
        false false =
      .error "Source, target and label cannot be empty" ∧
    (C4CodeDiagram.init "S" "f").add_association "" "B" none none
        false false =
      .error "Class names cannot be empty" ∧
    (C4CodeDiagram.init "S" "f").add_association "A" "B" none
        (some "1..*") true false =
      .ok ⟨"S", "f", [], [⟨"A", "B", none, some "1..*", true, false⟩],
           [], []⟩ :=
  ⟨c3_validation.1 _ "" "B" "l" false (Or.inl rfl),
   c3_validation.2.1 _ "A" "" "l" none false (Or.inr (Or.inl rfl)),
   c3_validation.2.2.1 _ "A" "B" "" none false false
     (Or.inr (Or.inr rfl)),
   c3_validation.2.2.2.1 _ "" "B" none none false false (Or.inl rfl),
   c3_validation.2.2.2.2 _ "A" "B" (some "1..*") true false (by decide)
     (by decide)⟩

/-- The context diagram after `add_user "A"` once. -/
def c6mid : C4ContextDiagram := ⟨"S", "f", [⟨"A", none, none⟩], [], []⟩

/-- The context diagram after `add_user "A"` twice. -/
def c6dup : C4ContextDiagram :=
  ⟨"S", "f", [⟨"A", none, none⟩, ⟨"A", none, none⟩], [], []⟩

/-- C6 counterexample: two successful `add_user` calls with the same name
on a fresh instance leave the users collection with two entries named
`"A"`, so entity names are not unique within a single collection. -/
theorem c6_counterexample :
    (C4ContextDiagram.init "S" "f").add_user "A" none none = .ok c6mid ∧
    c6mid.add_user "A" none none = .ok c6dup ∧
    c6dup.users.map ContextUser.name = ["A", "A"] ∧
    ¬ (c6dup.users.map ContextUser.name).Nodup := by
  refine ⟨by rfl, by rfl, by rfl, by simp [c6dup]⟩

/-- C6 amended: no add-operation inspects the existing collections, so a
successful add appends even when the name is already present: names need
not be unique within a collection, and the same name may also appear in
two different collections, with no deduplication in either case. -/
theorem c6_no_dedup :
    (∀ (d : C4ContextDiagram) (n : String) (ds rl : Option String),
      n ≠ "" →
      d.add_user n ds rl = .ok { d with users := d.users ++ [⟨n, ds, rl⟩] }) ∧
    (∀ (d : C4ContainerDiagram) (n te : String) (ds : Option String)
        (ty : String) (sch : Option String),
      n ≠ "" → te ≠ "" →
      d.add_container n te ds ty sch =
        .ok { d with containers := d.containers ++ [⟨n, te, ds, ty, sch⟩] }) ∧
    (∀ (d : C4ContextDiagram) (n : String) (ds rl : Option String),
      n ≠ "" →
      (d.add_user n ds rl).bind (fun d1 => d1.add_user n ds rl) =
        .ok { d with users := d.users ++ [⟨n, ds, rl⟩, ⟨n, ds, rl⟩] }) ∧
    (∀ (d : C4ContextDiagram) (n : String),
      n ≠ "" →
      (d.add_user n none none).bind
          (fun d1 => d1.add_external_system n none none) =
        .ok { d with users := d.users ++ [⟨n, none, none⟩],
                     external_systems :=
                       d.external_systems ++ [⟨n, none, none⟩] }) := by
  refine ⟨?_, ?_, ?_, ?_⟩
  · intro d n ds rl h
    simp [C4ContextDiagram.add_user, h]
  · intro d n te ds ty sch h1 h2
    simp [C4ContainerDiagram.add_container, h1, h2]
  · intro d n ds rl h
    simp [C4ContextDiagram.add_user, h, Except.bind]
  · intro d n h
    simp [C4ContextDiagram.add_user, C4ContextDiagram.add_external_system,
      h, Except.bind]

/-- C6 witness: the amended no-deduplication law at concrete inputs,
exhibiting a duplicate name within one collection and a shared name
across two collections. -/
theorem c6_no_dedup_witness :
    (C4ContextDiagram.init "S" "f").add_user "A" none none =
      .ok ⟨"S", "f", [⟨"A", none, none⟩], [], []⟩ ∧
    ((C4ContextDiagram.init "S" "f").add_user "A" none none).bind
        (fun d1 => d1.add_user "A" none none) =
      .ok ⟨"S", "f", [⟨"A", none, none⟩, ⟨"A", none, none⟩], [], []⟩ ∧
    ((C4ContextDiagram.init "S" "f").add_user "A" none none).bind
        (fun d1 => d1.add_external_system "A" none none) =
      .ok ⟨"S", "f", [⟨"A", none, none⟩], [⟨"A", none, none⟩], []⟩ :=
  ⟨c6_no_dedup.1 _ "A" none none (by decide),
   c6_no_dedup.2.2.1 _ "A" none none (by decide),
   c6_no_dedup.2.2.2 _ "A" (by decide)⟩

/-- C8: for any context diagram the user y-offsets are pairwise distinct
and the external-system y-offsets are pairwise distinct, because the
vertical spacing is strictly positive and the offset is strictly
monotone in the index. -/
theorem c8_offsets_distinct :
    ∀ d : C4ContextDiagram,
      ((List.range d.users.length).map (context_user_y d)).Nodup ∧
      ((List.range d.external_systems.length).map (context_ext_y d)).Nodup := by
  intro d
  have hme : (1 : ℕ) ≤ max 1 (context_max_elements d) := le_max_left _ _
  have hs : 0 < context_vertical_spacing d := by
    unfold context_vertical_spacing
    apply div_pos (by norm_num)
    exact_mod_cast Nat.lt_of_lt_of_le Nat.zero_lt_one hme
  constructor
  · refine List.Nodup.map ?_ (List.nodup_range _)
    intro i j hij
    unfold context_user_y at hij
    have h2 := mul_right_cancel₀ (ne_of_gt hs) hij
    have h3 : (i : ℚ) = j := by linarith
    exact_mod_cast h3
  · refine List.Nodup.map ?_ (List.nodup_range _)
    intro i j hij
    unfold context_ext_y at hij
    have h2 := mul_right_cancel₀ (ne_of_gt hs) hij
    have h3 : (i : ℚ) = j := by linarith
    exact_mod_cast h3

/-- C9: `from_json` is not atomic — if a listed user fails validation
partway through, the users already processed remain appended to the
receiver's collection, the error surfaces, and the later collections of
the document are not processed; no rollback occurs. -/
theorem c9_from_json_not_atomic :
    ∀ (d : C4ContextDiagram) (doc : ContextDoc)
      (pre rest : List ContextUser) (bad : ContextUser),
      doc.users = some (pre ++ bad :: rest) →
      (∀ u ∈ pre, u.name ≠ "") → bad.name = "" →
      (d.from_json doc).1.users = d.users ++ pre ∧
      (d.from_json doc).2 = some "User name cannot be empty" ∧
      (d.from_json doc).1.external_systems = d.external_systems ∧
      (d.from_json doc).1.relationships = d.relationships := by
  intro d doc pre rest bad hdoc hpre hbad
  cases hsn : doc.system_name
  case none =>
    simp only [C4ContextDiagram.from_json, hsn, hdoc]
    rw [runAdds_ctx_users_fail pre bad rest hbad _ hpre]
    simp [pyStep]
  case some s =>
    simp only [C4ContextDiagram.from_json, hsn, hdoc]
    rw [runAdds_ctx_users_fail pre bad rest hbad _ hpre]
    simp [pyStep]

/-- A document whose second listed user has an empty name, with a
later external-system entry that must not be processed. -/
def c9doc : ContextDoc :=
  ⟨none, some [⟨"ok", none, none⟩, ⟨"", none, none⟩],
   some [⟨"E", none, none⟩], none⟩

/-- C9 witness: the non-atomicity law applied to a concrete document. -/
theorem c9_witness :
    ((C4ContextDiagram.init "S" "f").from_json c9doc).1.users =
      [⟨"ok", none, none⟩] ∧
    ((C4ContextDiagram.init "S" "f").from_json c9doc).2 =
      some "User name cannot be empty" ∧
    ((C4ContextDiagram.init "S" "f").from_json c9doc).1.external_systems =
      [] :=
  have h := c9_from_json_not_atomic (C4ContextDiagram.init "S" "f") c9doc
    [⟨"ok", none, none⟩] [] ⟨"", none, none⟩ rfl (by simp) rfl
  ⟨h.1, h.2.1, h.2.2.1⟩

/-- C10: every successful add-operation of the code level appends exactly
one record to exactly one collection and leaves the title and every other
collection unchanged (the record update below touches a single field of
the state). -/
theorem c10_add_frame :
    (∀ (d : C4CodeDiagram) (n : String) (ds : Option String)
        (at_ me : Option (List String)) (ty : String) (ab ii : Bool),
      n ≠ "" →
      d.add_class n ds at_ me ty ab ii =
        .ok { d with classes :=
                d.classes ++ [⟨n, ds, at_.getD [], me.getD [], ty, ab,
                  ii⟩] }) ∧
    (∀ (d : C4CodeDiagram) (c1 c2 : String) (lab mu : Option String)
        (ag cp : Bool),
      c1 ≠ "" → c2 ≠ "" →
      d.add_association c1 c2 lab mu ag cp =
        .ok { d with associations :=
                d.associations ++ [⟨c1, c2, lab, mu, ag, cp⟩] }) ∧
    (∀ (d : C4CodeDiagram) (sub sup : String),
      sub ≠ "" → sup ≠ "" →
      d.add_inheritance sub sup =
        .ok { d with inheritances := d.inheritances ++ [⟨sub, sup⟩] }) ∧
    (∀ (d : C4CodeDiagram) (im ifc : String),
      im ≠ "" → ifc ≠ "" →
      d.add_interface_implementation im ifc =
        .ok { d with interfaces := d.interfaces ++ [⟨im, ifc⟩] }) := by
  refine ⟨?_, ?_, ?_, ?_⟩
  · intro d n ds at_ me ty ab ii h
    simp [C4CodeDiagram.add_class, h]
  · intro d c1 c2 lab mu ag cp h1 h2
    simp [C4CodeDiagram.add_association, h1, h2]
  · intro d sub sup h1 h2
    simp [C4CodeDiagram.add_inheritance, h1, h2]
  · intro d im ifc h1 h2
    simp [C4CodeDiagram.add_interface_implementation, h1, h2]

/-- C10 witness: each code-level add applied at a concrete input, showing
the single appended record and every other field untouched. -/
theorem c10_witness :
    (C4CodeDiagram.init "S" "f").add_class "A" none none none "Class"
        false false =
      .ok ⟨"S", "f", [⟨"A", none, [], [], "Class", false, false⟩], [],
           [], []⟩ ∧
    (C4CodeDiagram.init "S" "f").add_association "A" "B" (some "uses")
        none false false =
      .ok ⟨"S", "f", [], [⟨"A", "B", some "uses", none, false, false⟩],
           [], []⟩ ∧
    (C4CodeDiagram.init "S" "f").add_inheritance "A" "B" =
      .ok ⟨"S", "f", [], [], [⟨"A", "B"⟩], []⟩ ∧
    (C4CodeDiagram.init "S" "f").add_interface_implementation "A" "I" =
      .ok ⟨"S", "f", [], [], [], [⟨"A", "I"⟩]⟩ :=
  ⟨c10_add_frame.1 _ "A" none none none "Class" false false (by decide),
   c10_add_frame.2.1 _ "A" "B" (some "uses") none false false (by decide)
     (by decide),
   c10_add_frame.2.2.1 _ "A" "B" (by decide) (by decide),
   c10_add_frame.2.2.2 _ "A" "I" (by decide) (by decide)⟩

/-- C5: `generate` rejects an unsupported format string with a
`ValidationError` before any drawing work at every level, and rejects an
empty entity collection at the container, component and code levels with
the same error kind; an `Except.error` result carries no render, i.e. no
output file is produced. -/
theorem c5_generate_validation :
    (∀ (d : C4ContextDiagram) (fmt : String), ¬ formatSupported fmt →
      d.generate fmt = .error ("Unsupported output format: " ++ fmt)) ∧
    (∀ (d : C4ContainerDiagram) (trig : ℚ → ℚ × ℚ) (fmt : String),
      ¬ formatSupported fmt →
      d.generate trig fmt =
        .error ("Unsupported output format: " ++ fmt)) ∧
    (∀ (d : C4ComponentDiagram) (trig : ℚ → ℚ × ℚ) (fmt : String),
      ¬ formatSupported fmt →
      d.generate trig fmt =
        .error ("Unsupported output format: " ++ fmt)) ∧
    (∀ (d : C4CodeDiagram) (fmt : String), ¬ formatSupported fmt →
      d.generate fmt = .error ("Unsupported output format: " ++ fmt)) ∧
    (∀ (d : C4ContainerDiagram) (trig : ℚ → ℚ × ℚ) (fmt : String),
      formatSupported fmt → d.containers = [] →
      d.generate trig fmt = .error "No containers added to diagram") ∧
    (∀ (d : C4ComponentDiagram) (trig : ℚ → ℚ × ℚ) (fmt : String),
      formatSupported fmt → d.components = [] →
      d.generate trig fmt = .error "No components added to diagram") ∧
    (∀ (d : C4CodeDiagram) (fmt : String),
      formatSupported fmt → d.classes = [] →
      d.generate fmt = .error "No classes added to diagram") := by
  refine ⟨?_, ?_, ?_, ?_, ?_, ?_, ?_⟩
  · intro d fmt h
    unfold C4ContextDiagram.generate
    rw [if_neg h]
  · intro d trig fmt h
    unfold C4ContainerDiagram.generate
    rw [if_neg h]
  · intro d trig fmt h
    unfold C4ComponentDiagram.generate
    rw [if_neg h]
  · intro d fmt h
    unfold C4CodeDiagram.generate
    rw [if_neg h]
  · intro d trig fmt hf he
    unfold C4ContainerDiagram.generate
    rw [if_pos hf, if_pos (by simp [he])]
  · intro d trig fmt hf he
    unfold C4ComponentDiagram.generate
    rw [if_pos hf, if_pos (by simp [he])]
  · intro d fmt hf he
    unfold C4CodeDiagram.generate
    rw [if_pos hf, if_pos (by simp [he])]

/-- C5 witness: the validation law at concrete inputs — format `"bmp"`
at all four levels and an empty collection at the three levels that
require one. -/
theorem c5_generate_validation_witness :
    (C4ContextDiagram.init "S" "f").generate "bmp" =
      .error "Unsupported output format: bmp" ∧
    (C4ContainerDiagram.init "S" "f").generate trigConst "bmp" =
      .error "Unsupported output format: bmp" ∧
    (C4ComponentDiagram.init "S" "f").generate trigConst "bmp" =
      .error "Unsupported output format: bmp" ∧
    (C4CodeDiagram.init "S" "f").generate "bmp" =
      .error "Unsupported output format: bmp" ∧
    (C4ContainerDiagram.init "S" "f").generate trigConst "png" =
      .error "No containers added to diagram" ∧
    (C4ComponentDiagram.init "S" "f").generate trigConst "png" =
      .error "No components added to diagram" ∧
    (C4CodeDiagram.init "S" "f").generate "png" =
      .error "No classes added to diagram" :=
  ⟨c5_generate_validation.1 _ "bmp" (by decide),
   c5_generate_validation.2.1 _ trigConst "bmp" (by decide),
   c5_generate_validation.2.2.1 _ trigConst "bmp" (by decide),
   c5_generate_validation.2.2.2.1 _ "bmp" (by decide),
   c5_generate_validation.2.2.2.2.1 _ trigConst "png" (by decide) rfl,
   c5_generate_validation.2.2.2.2.2.1 _ trigConst "png" (by decide) rfl,
   c5_generate_validation.2.2.2.2.2.2 _ "png" (by decide) rfl⟩

/-- C4 counterexample: with zero entities the raw step computation
`360 / len` is a `ZeroDivisionError` (`none`) — not a computation that
treats n = 0 as n = 1, which would give step 360 — and `generate` never
reaches it because the empty-collection `ValidationError` is raised
first. -/
theorem c4_counterexample :
    (C4ComponentDiagram.init "S" "f").calculate_positions trigConst =
      none ∧
    angle_step 0 = none ∧
    (C4ComponentDiagram.init "S" "f").generate trigConst "png" =
      .error "No components added to diagram" := by
  refine ⟨by rfl, by rfl, ?_⟩
  unfold C4ComponentDiagram.generate
  rw [if_pos (by decide), if_pos (by rfl)]

/-- C4 amended: for n ≥ 1 entities the angular step is exactly `360 / n`
degrees and the i-th entity sits at angle `i * step` on the circle of
fixed radius (6 for containers, 5 for components) centred on the origin;
for n = 0 `generate` raises the empty-collection `ValidationError`
before the step computation, so no division error is raised (n = 0 is
rejected, not treated as n = 1). -/
theorem c4_circular_layout :
    (∀ n : ℕ, n ≠ 0 → angle_step n = some (360 / (n : ℚ))) ∧
    (∀ (trig : ℚ → ℚ × ℚ) (cs : List Container), cs ≠ [] →
      containerPositions trig cs = some (cs.enum.map (fun p =>
        (p.2.name,
         circlePoint 6 trig ((p.1 : ℚ) * (360 / (cs.length : ℚ))))))) ∧
    (∀ (trig : ℚ → ℚ × ℚ) (d : C4ComponentDiagram), d.components ≠ [] →
      d.calculate_positions trig = some (d.components.enum.map (fun p =>
        (p.2.name,
         circlePoint 5 trig
           ((p.1 : ℚ) * (360 / (d.components.length : ℚ))))))) ∧
    (∀ (trig : ℚ → ℚ × ℚ) (d : C4ContainerDiagram) (fmt : String),
      formatSupported fmt → d.containers = [] →
      d.generate trig fmt = .error "No containers added to diagram") ∧
    (∀ (trig : ℚ → ℚ × ℚ) (d : C4ComponentDiagram) (fmt : String),
      formatSupported fmt → d.components = [] →
      d.generate trig fmt = .error "No components added to diagram") := by
  refine ⟨?_, ?_, ?_, ?_, ?_⟩
  · intro n h
    simp [angle_step, h]
  · intro trig cs h
    rw [containerPositions_eq trig h]
    rfl
  · intro trig d h
    rw [componentPositions_eq trig h]
    rfl
  · intro trig d fmt hf he
    unfold C4ContainerDiagram.generate
    rw [if_pos hf, if_pos (by simp [he])]
  · intro trig d fmt hf he
    unfold C4ComponentDiagram.generate
    rw [if_pos hf, if_pos (by simp [he])]

/-- C4 witness: the amended layout law at concrete inputs — a step of
120 degrees for three entities, the radius-6 placement of a single
container, and the empty-collection rejections. -/
theorem c4_circular_layout_witness :
    angle_step 3 = some 120 ∧
    containerPositions trigConst [⟨"A", "T", none, "Application", none⟩] =
      some [("A", ((6 : ℚ), (0 : ℚ)))] ∧
    (C4ContainerDiagram.init "S" "f").generate trigConst "png" =
      .error "No containers added to diagram" ∧
    (C4ComponentDiagram.init "S" "f").generate trigConst "svg" =
      .error "No components added to diagram" := by
  refine ⟨?_, ?_, ?_, ?_⟩
  · rw [c4_circular_layout.1 3 (by decide)]
    norm_num
  · rw [c4_circular_layout.2.1 trigConst _ (by simp)]
    norm_num [List.enum, circlePoint, trigConst]
  · exact c4_circular_layout.2.2.2.1 trigConst _ "png" (by decide) rfl
  · exact c4_circular_layout.2.2.2.2 trigConst _ "svg" (by decide) rfl

/-- C2: at the container level, a registered relationship whose source
or target names no registered container is retained in the `to_json`
document, `generate` succeeds (no exception) and draws no connector for
it, while every relationship with both endpoints registered gets its
connector. At the code level the association is likewise retained by
`to_json` and the intact association loop's membership test
(C4.py:376-377) would skip it — but `generate` can never reach that
loop: the class-drawing loop first calls `_draw_class`, whose body is a
syntax error, so every code-level render fails (the code bug recorded
for this claim). -/
theorem c2_dangling_skip :
    (∀ (trig : ℚ → ℚ × ℚ) (d : C4ContainerDiagram) (fmt : String)
        (r : ContainerRelationship),
      formatSupported fmt → d.containers ≠ [] → r ∈ d.relationships →
      (r.source ∉ d.containers.map Container.name ∨
       r.target ∉ d.containers.map Container.name) →
      d.to_json.relationships = some d.relationships ∧
      d.generate trig fmt =
        .ok ⟨"diagrams_output/" ++ d.output_filename ++ "." ++ fmt,
             containerLayoutList trig d.containers,
             d.relationships.filterMap
               (containerEdge (containerLayoutList trig d.containers))⟩ ∧
      containerEdge (containerLayoutList trig d.containers) r = none ∧
      (∀ r' ∈ d.relationships,
        r'.source ∈ d.containers.map Container.name →
        r'.target ∈ d.containers.map Container.name →
        (containerEdge (containerLayoutList trig d.containers)
          r').isSome)) ∧
    (∀ (d : C4CodeDiagram) (fmt : String) (a : CodeAssociation),
      formatSupported fmt → d.classes ≠ [] → a ∈ d.associations →
      (a.class1 ∉ d.classes.map CodeClass.name ∨
       a.class2 ∉ d.classes.map CodeClass.name) →
      d.to_json.associations = some d.associations ∧
      codeAssocEdge (codeGridList d.classes) a = none ∧
      (∀ a' ∈ d.associations,
        a'.class1 ∈ d.classes.map CodeClass.name →
        a'.class2 ∈ d.classes.map CodeClass.name →
        (codeAssocEdge (codeGridList d.classes) a').isSome) ∧
      d.generate fmt = .error C4CodeDiagram.draw_class_error) := by
  constructor
  · intro trig d fmt r hf hne hr hd
    refine ⟨rfl, container_generate_eq trig hf hne, ?_, ?_⟩
    · apply containerEdge_eq_none
      rcases hd with hd | hd
      · exact Or.inl (by rw [dictGet_eq_none_iff, containerLayoutList_keys]
                         exact hd)
      · exact Or.inr (by rw [dictGet_eq_none_iff, containerLayoutList_keys]
                         exact hd)
    · intro r' hr' h1 h2
      apply containerEdge_isSome
      · rw [dictGet_isSome_iff, containerLayoutList_keys]; exact h1
      · rw [dictGet_isSome_iff, containerLayoutList_keys]; exact h2
  · intro d fmt a hf hne ha hd
    refine ⟨rfl, ?_, ?_, code_generate_err hf hne⟩
    · apply codeAssocEdge_eq_none
      rcases hd with hd | hd
      · exact Or.inl (by rw [dictGet_eq_none_iff, codeGridList_keys]
                         exact hd)
      · exact Or.inr (by rw [dictGet_eq_none_iff, codeGridList_keys]
                         exact hd)
    · intro a' ha' h1 h2
      apply codeAssocEdge_isSome
      · rw [dictGet_isSome_iff, codeGridList_keys]; exact h1
      · rw [dictGet_isSome_iff, codeGridList_keys]; exact h2

/-- A container diagram with one container and one dangling
relationship (target `"B"` names no container). -/
def c2con : C4ContainerDiagram :=
  ⟨"S", "f", [⟨"A", "T", none, "Application", none⟩],
   [⟨"A", "B", "calls", none, false⟩]⟩

/-- A code diagram with one class and one dangling association
(`class2 = "B"` names no class). -/
def c2code : C4CodeDiagram :=
  ⟨"K", "f", [⟨"A", none, [], [], "Class", false, false⟩],
   [⟨"A", "B", none, none, false, false⟩], [], []⟩

/-- C2 witness: the dangling-skip law applied to concrete container and
code diagrams — the documents keep the dangling edges, the container
render succeeds with an empty edge list, the code-level membership test
skips its dangling association, and the code-level render dies on the
`_draw_class` syntax error. -/
theorem c2_dangling_skip_witness :
    c2con.to_json.relationships =
      some [⟨"A", "B", "calls", none, false⟩] ∧
    c2con.generate trigConst "png" =
      .ok ⟨"diagrams_output/f.png", [("A", ((6 : ℚ), (0 : ℚ)))], []⟩ ∧
    c2code.to_json.associations =
      some [⟨"A", "B", none, none, false, false⟩] ∧
    codeAssocEdge (codeGridList c2code.classes)
      ⟨"A", "B", none, none, false, false⟩ = none ∧
    c2code.generate "png" = .error C4CodeDiagram.draw_class_error := by
  have hcon := c2_dangling_skip.1 trigConst c2con "png"
    ⟨"A", "B", "calls", none, false⟩ (by decide) (by simp [c2con])
    (by simp [c2con]) (Or.inr (by simp [c2con]))
  have hcode := c2_dangling_skip.2 c2code "png"
    ⟨"A", "B", none, none, false, false⟩ (by decide) (by simp [c2code])
    (by simp [c2code]) (Or.inr (by simp [c2code]))
  have hlayout : containerLayoutList trigConst c2con.containers =
      [("A", ((6 : ℚ), (0 : ℚ)))] := by
    norm_num [containerLayoutList, c2con, List.enum, circlePoint, trigConst]
  refine ⟨hcon.1, ?_, hcode.1, hcode.2.1, hcode.2.2.2⟩
  rw [hcon.2.1, hlayout]
  have hedge : containerEdge [("A", ((6 : ℚ), (0 : ℚ)))]
      (⟨"A", "B", "calls", none, false⟩ : ContainerRelationship) = none := by
    rw [← hlayout]
    exact hcon.2.2.1
  simp [c2con, hedge]

/-- A context diagram with one user, no external systems, and one
relationship from the user to the system. -/
def c7ctx : C4ContextDiagram :=
  ⟨"S", "f", [⟨"U", none, none⟩], [], [⟨"U", "S", "calls", false⟩]⟩

/-- C7 counterexample: at the context level the connector label is drawn
at `(-2.5, 0.6*y)`, which is neither the midpoint of the drawn arrow
endpoints `(-4, y)` and `(-1.5, 0.2*y)` (that is `(-2.75, 0.6*y)`) nor
the midpoint of the user and system positions (that is `(-2.5, 0.5*y)`),
so the claim fails at the context level. -/
theorem c7_counterexample :
    c7ctx.generate "png" =
      .ok ⟨"diagrams_output/f.png", (0, 0), [("U", (-5, -5))], [],
           [⟨(-4, -5), (-3/2, -1), some (-5/2, -3), some "calls"⟩], []⟩ ∧
    midPt (-4, -5) (-3/2, -1) = (-11/4, -3) ∧
    (some ((-5/2 : ℚ), (-3 : ℚ)) ≠ some ((-11/4 : ℚ), (-3 : ℚ))) ∧
    midPt (-5, -5) (0, 0) = (-5/2, -5/2) ∧
    (some ((-5/2 : ℚ), (-3 : ℚ)) ≠ some ((-5/2 : ℚ), (-5/2 : ℚ))) := by
  refine ⟨?_, by norm_num [midPt], by norm_num, by norm_num [midPt],
    by norm_num⟩
  unfold C4ContextDiagram.generate
  rw [if_pos (by decide)]
  norm_num [c7ctx, List.enum, contextUserEdge, contextExtEdge,
    context_user_y, context_ext_y, context_vertical_spacing,
    context_max_elements, C4ContextDiagram.find_relationship_label,
    C4ContextDiagram.find_relationship, pyTruthy]
  decide

/-- C7 amended: at the container, component and code levels every drawn
connector whose label is rendered has that label placed exactly at the
geometric midpoint of the two endpoint positions; at the context level
(see the counterexample) the label sits at `x = ±2.5`, `y = 0.6*y_offset`
instead, which differs from the midpoint of the arrow endpoints. The
code-level render conjunct is vacuous, since the `_draw_class` syntax
error keeps `C4CodeDiagram.generate` from ever succeeding; the final
conjunct therefore states the midpoint law directly for the intact
`_draw_relationship` body (C4.py:322-338) as modelled by
`codeAssocEdge`. -/
theorem c7_midpoint :
    (∀ (trig : ℚ → ℚ × ℚ) (d : C4ContainerDiagram) (fmt : String)
        (out : ContainerRender), d.generate trig fmt = .ok out →
      ∀ e ∈ out.edges, e.labelPos = some (midPt e.src e.tgt)) ∧
    (∀ (trig : ℚ → ℚ × ℚ) (d : C4ComponentDiagram) (fmt : String)
        (out : ComponentRender), d.generate trig fmt = .ok out →
      ∀ e ∈ out.edges, e.labelPos = some (midPt e.src e.tgt)) ∧
    (∀ (d : C4CodeDiagram) (fmt : String) (out : CodeRender),
      d.generate fmt = .ok out →
      ∀ e ∈ out.assocEdges ++ out.inhEdges ++ out.intfEdges,
        ∀ p, e.labelPos = some p → p = midPt e.src e.tgt) ∧
    (∀ (ps : List (String × (ℚ × ℚ))) (a : CodeAssociation)
        (e : DrawnEdge), codeAssocEdge ps a = some e →
      ∀ p, e.labelPos = some p → p = midPt e.src e.tgt) := by
  refine ⟨?_, ?_, ?_, ?_⟩
  · intro trig d fmt out h e he
    rw [container_generate_ok h] at he
    obtain ⟨r, _, hre⟩ := List.mem_filterMap.1 he
    exact containerEdge_label hre
  · intro trig d fmt out h e he
    rw [component_generate_ok h] at he
    obtain ⟨r, _, hre⟩ := List.mem_filterMap.1 he
    exact componentEdge_label hre
  · intro d fmt out h e he p hp
    exact absurd h code_generate_not_ok
  · intro ps a e h p hp
    exact codeAssocEdge_label h hp

/-- A container diagram with one container and one self-loop
relationship, so both endpoints resolve. -/
def c7w : C4ContainerDiagram :=
  ⟨"S", "f", [⟨"A", "T", none, "Application", none⟩],
   [⟨"A", "A", "x", none, false⟩]⟩

/-- C7 witness: the midpoint law applied to a concrete container render —
the single drawn edge has its label at the midpoint of its endpoints. -/
theorem c7_midpoint_witness :
    c7w.generate trigConst "png" =
      .ok ⟨"diagrams_output/f.png", [("A", ((6 : ℚ), (0 : ℚ)))],
           [⟨(6, 0), (6, 0), some (6, 0), some "x"⟩]⟩ ∧
    (DrawnEdge.mk (6, 0) (6, 0) (some (6, 0)) (some "x")).labelPos =
      some (midPt (6, 0) (6, 0)) := by
  have hgen : c7w.generate trigConst "png" =
      .ok ⟨"diagrams_output/f.png", [("A", ((6 : ℚ), (0 : ℚ)))],
           [⟨(6, 0), (6, 0), some (6, 0), some "x"⟩]⟩ := by
    rw [container_generate_eq trigConst (by decide) (by simp [c7w])]
    have hlayout : containerLayoutList trigConst c7w.containers =
        [("A", ((6 : ℚ), (0 : ℚ)))] := by
      norm_num [containerLayoutList, c7w, List.enum, circlePoint, trigConst]
    rw [hlayout]
    norm_num [c7w, containerEdge, dictGet, List.lookup, midPt, pyTruthy,
      List.filterMap_cons, List.filterMap_nil]
    decide
  refine ⟨hgen, ?_⟩
  exact c7_midpoint.1 trigConst c7w "png" _ hgen
    ⟨(6, 0), (6, 0), some (6, 0), some "x"⟩ (by simp)
